import Mathlib

set_option maxRecDepth 8000

/-!
Verification development for the fantasy-football aggregation app
(platform adapters, lineup-slot normalization, ESPN scrape/parse pipeline,
and the unified dispatcher).

Conventions of the shallow embedding:
* TypeScript numbers carrying point values are modelled as exact rationals.
* A JavaScript object used as a string-keyed dictionary is modelled as an
  association list with insert-or-replace semantics preserving insertion
  order (own properties only; prototype-chain lookups are out of model).
* `undefined`/`null` become `Option`; a thrown exception becomes
  `Except.error` carrying the message string.
* Wall-clock values (`Date.now()`, `new Date()`) are threaded as explicit
  parameters; `lastUpdated`/`lastSyncDate` timestamp fields are omitted
  from the embedded records since no claim concerns them.
* JavaScript regular expressions are transcribed into a small regex AST
  (`RE`) and evaluated by a backtracking matcher (`reRun`) implementing
  the leftmost-match, greedy/lazy preference order of the JS engine.
-/

/-! ## Basic JS string helpers -/

/-- Lower-case an ASCII code point, as both `String.prototype.toLowerCase`
and the regex `i` flag canonicalization do on ASCII input. -/
def lowerN (c : Char) : Nat :=
  if 65 ≤ c.toNat ∧ c.toNat ≤ 90 then c.toNat + 32 else c.toNat

/-- Character comparison, optionally case-insensitive (ASCII). -/
def charEqCI (ci : Bool) (a b : Char) : Bool :=
  if ci then lowerN a == lowerN b else a == b

/-- Match a literal character sequence `pat` inside `s` starting at `i`;
returns the end index on success. -/
def litAt (ci : Bool) (s : List Char) (i : Nat) : List Char → Option Nat
  | [] => some i
  | c :: cs =>
    match s.get? i with
    | some d => if charEqCI ci c d then litAt ci s (i + 1) cs else none
    | none => none

/-- Does `pat` occur in `s` at or after index `i`?  (The fuel argument is
structural-recursion bookkeeping, always started at `s.length + 1`.) -/
def containsFrom (ci : Bool) (s pat : List Char) : Nat → Nat → Bool
  | _, 0 => false
  | i, fuel + 1 =>
    match litAt ci s i pat with
    | some _ => true
    | none => if i < s.length then containsFrom ci s pat (i + 1) fuel else false

/-- `String.prototype.includes` (case-sensitive substring test). -/
def containsSub (s pat : String) : Bool :=
  containsFrom false s.data pat.data 0 (s.data.length + 1)

/-- Case-insensitive substring test (a `gi` literal regex used as a probe). -/
def containsCI (s pat : List Char) : Bool := containsFrom true s pat 0 (s.length + 1)

/-- JS truthiness of a possibly-absent string (absent and `""` are falsy). -/
def jsTruthy (o : Option String) : Bool :=
  match o with
  | none => false
  | some s => s ≠ ""

/-- Is the character JS whitespace (ASCII portion)? -/
def isWsChar (c : Char) : Bool :=
  c = ' ' ∨ c = '\t' ∨ c = '\n' ∨ c = '\r' ∨ c = '\x0b' ∨ c = '\x0c'

/-- The characters of `s` from index `i` (inclusive) to `j` (exclusive). -/
def sliceList (s : List Char) (i j : Nat) : List Char :=
  (s.drop i).take (j - i)

/-- Split on a (non-empty) separator, `String.prototype.split` style:
`"a--b".split("-") = ["a", "", "b"]`. -/
def splitOnGo (sep : List Char) : Nat → List Char → List Char → List (List Char)
  | 0, _, cur => [cur.reverse]
  | fuel + 1, rest, cur =>
    match litAt false rest 0 sep with
    | some k => cur.reverse :: splitOnGo sep fuel (rest.drop k) []
    | none =>
      match rest with
      | [] => [cur.reverse]
      | c :: rs => splitOnGo sep fuel rs (c :: cur)

def jsSplit (s sep : String) : List String :=
  (splitOnGo sep.data (s.data.length + 1) s.data []).map String.mk

/-- `String.prototype.trim` (ASCII whitespace). -/
def jsTrim (s : String) : String :=
  String.mk (((s.data.dropWhile isWsChar).reverse.dropWhile isWsChar).reverse)

/-- ASCII lower-casing of a whole string (`String.prototype.toLowerCase`
restricted to ASCII, which is all the dispatcher compares). -/
def jsToLower (s : String) : String :=
  String.mk (s.data.map (fun c => Char.ofNat (lowerN c)))

/-- Strip a leading literal once, as `replace(/^lit/, '')` does. -/
def jsStripLead (s lit : String) : String :=
  match litAt false s.data 0 lit.data with
  | some j => String.mk (s.data.drop j)
  | none => s

/-- Strip a trailing literal once, as `replace(/lit$/, '')` does. -/
def jsStripTail (s lit : String) : String :=
  if lit.data.length ≤ s.data.length ∧
      litAt false s.data (s.data.length - lit.data.length) lit.data = some s.data.length then
    String.mk (s.data.take (s.data.length - lit.data.length))
  else s

/-- Remove the first occurrence of `pat`, as `replace('pat', '')` does on a
string pattern. -/
def jsRemoveFirst (s pat : String) : String :=
  match (List.range (s.data.length + 1)).find? (fun i => (litAt false s.data i pat.data).isSome) with
  | some i => String.mk (s.data.take i ++ s.data.drop (i + pat.data.length))
  | none => s

/-- Digits-only prefix parse helper. -/
def digitsVal : List Char → Nat → Nat
  | [], acc => acc
  | c :: cs, acc =>
    if '0' ≤ c ∧ c ≤ '9' then digitsVal cs (acc * 10 + (c.toNat - 48)) else acc

/-- Take the leading run of decimal digits. -/
def takeDigits (s : List Char) : List Char :=
  s.takeWhile (fun c => '0' ≤ c ∧ c ≤ '9')

/-- `parseInt(s) || 0` : skip leading whitespace, optional sign, leading
digits; `NaN` (no digits) collapses to the `|| 0` default. -/
def jsParseIntD (s : String) : Int :=
  let t := s.data.dropWhile isWsChar
  match t with
  | '-' :: rest =>
    let ds := takeDigits rest
    if ds = [] then 0 else -(digitsVal ds 0 : Int)
  | '+' :: rest =>
    let ds := takeDigits rest
    if ds = [] then 0 else (digitsVal ds 0 : Int)
  | _ =>
    let ds := takeDigits t
    if ds = [] then 0 else (digitsVal ds 0 : Int)

/-- `parseFloat` on a string of shape `\d+\.\d+` (the only shape the code
ever feeds it, coming from the points regex): the exact rational
`int + frac / 10 ^ len`, written as one `mkRat` so that it evaluates by
kernel reduction. -/
def parseDecQ (s : String) : ℚ :=
  let intPart := takeDigits s.data
  let rest := s.data.drop intPart.length
  match rest with
  | '.' :: fracChars =>
    let fracPart := takeDigits fracChars
    mkRat (digitsVal intPart 0 * 10 ^ fracPart.length + digitsVal fracPart 0)
      (10 ^ fracPart.length)
  | _ => mkRat (digitsVal intPart 0) 1

/-- `teamUrl.split('?')[1]` fed to `URLSearchParams`: key=value pairs split
on `&`; `.get` takes the first occurrence of a key. -/
def parseQuery (s : String) : List (String × String) :=
  (jsSplit s "&").filterMap (fun kv =>
    match jsSplit kv "=" with
    | [] => none
    | [_] => none
    | k :: v :: _ => some (k, v))

/-- `URLSearchParams.get`: first value for the key, else null. -/
def queryGet (q : List (String × String)) (k : String) : Option String :=
  (q.find? (fun p => p.1 = k)).map Prod.snd

/-! ## A small backtracking regex engine

Each JavaScript regex literal used by the source is transcribed into this
AST; `reRun` implements the standard backtracking search order (leftmost
match; greedy quantifiers try the longer alternative first, lazy ones the
shorter; alternation is tried left to right), which is exactly the JS
semantics for the patterns involved. -/

inductive RE where
  | eps : RE
  | lit : List Char → RE
  | cls : Bool → List (Char × Char) → RE
  | dot : RE
  | seq : RE → RE → RE
  | alt : RE → RE → RE
  | opt : RE → RE
  | starG : RE → RE
  | starL : RE → RE
  | group : RE → RE
deriving Repr

/-- Is `c` inside one of the ranges? -/
def inRanges (c : Char) : List (Char × Char) → Bool
  | [] => false
  | (lo, hi) :: rs => (lo ≤ c ∧ c ≤ hi) ∨ inRanges c rs

/-- Node count, used only to compute a sufficient backtracking fuel. -/
def reSize : RE → Nat
  | .eps => 1
  | .lit cs => cs.length + 1
  | .cls _ _ => 1
  | .dot => 1
  | .seq a b => reSize a + reSize b + 1
  | .alt a b => reSize a + reSize b + 1
  | .opt a => reSize a + 1
  | .starG a => reSize a + 1
  | .starL a => reSize a + 1
  | .group a => reSize a + 1

/-- Backtracking matcher in continuation-passing style.  `caps` accumulates
capture-group texts in completion order (which coincides with group number
order for every pattern transcribed below, none of which nests groups).
The fuel only bounds the nesting depth of the search and is chosen large
enough (`reFuel`) that it is never the reason a match fails. -/
def reRun (ci dotAll : Bool) (s : List Char) :
    Nat → RE → Nat → List (List Char) →
    (Nat → List (List Char) → Option (Nat × List (List Char))) →
    Option (Nat × List (List Char))
  | 0, _, _, _, _ => none
  | Nat.succ fl, re, i, caps, k =>
    match re with
    | .eps => k i caps
    | .lit cs =>
      match litAt ci s i cs with
      | some j => k j caps
      | none => none
    | .cls neg rs =>
      match s.get? i with
      | some c => if inRanges c rs ≠ neg then k (i + 1) caps else none
      | none => none
    | .dot =>
      match s.get? i with
      | some c => if dotAll ∨ c ≠ '\n' then k (i + 1) caps else none
      | none => none
    | .seq a b => reRun ci dotAll s fl a i caps (fun j cs2 => reRun ci dotAll s fl b j cs2 k)
    | .alt a b =>
      match reRun ci dotAll s fl a i caps k with
      | some r => some r
      | none => reRun ci dotAll s fl b i caps k
    | .opt a =>
      match reRun ci dotAll s fl a i caps k with
      | some r => some r
      | none => k i caps
    | .starG a =>
      match reRun ci dotAll s fl a i caps
          (fun j cs2 => if i < j then reRun ci dotAll s fl (.starG a) j cs2 k else none) with
      | some r => some r
      | none => k i caps
    | .starL a =>
      match k i caps with
      | some r => some r
      | none =>
        reRun ci dotAll s fl a i caps
          (fun j cs2 => if i < j then reRun ci dotAll s fl (.starL a) j cs2 k else none)
    | .group a => reRun ci dotAll s fl a i caps (fun j cs2 => k j (cs2 ++ [sliceList s i j]))

/-- Fuel bound: nesting depth never exceeds pattern size times input length. -/
def reFuel (re : RE) (s : List Char) : Nat :=
  (reSize re + 4) * (s.length + 4)

/-- Try to match `re` at position `i`; returns end position and captures. -/
def reMatchAt (ci dotAll : Bool) (re : RE) (s : List Char) (i : Nat) :
    Option (Nat × List (List Char)) :=
  reRun ci dotAll s (reFuel re s) re i [] (fun j caps => some (j, caps))

/-- Leftmost match at or after `i`: start, end, captures.  (Fuel is
structural-recursion bookkeeping, started at `s.length + 1`.) -/
def reSearchFrom (ci dotAll : Bool) (re : RE) (s : List Char) :
    Nat → Nat → Option (Nat × Nat × List (List Char))
  | _, 0 => none
  | i, fuel + 1 =>
    match reMatchAt ci dotAll re s i with
    | some (j, caps) => some (i, j, caps)
    | none =>
      if i < s.length then reSearchFrom ci dotAll re s (i + 1) fuel else none

/-- `str.match(re)` for a non-global regex: leftmost match. -/
def reSearch (ci dotAll : Bool) (re : RE) (s : List Char) :
    Option (Nat × Nat × List (List Char)) :=
  reSearchFrom ci dotAll re s 0 (s.length + 1)

/-- Capture group `n` (0-based) of a match, as a string. -/
def capN (caps : List (List Char)) (n : Nat) : String :=
  String.mk ((caps.get? n).getD [])

/-- `str.match(re)` for a global regex: the list of whole matched
substrings, scanning left to right and resuming after each match. -/
def reSearchAll (ci dotAll : Bool) (re : RE) (s : List Char) : List String :=
  go 0 (s.length + 1)
where
  go (i fuel : Nat) : List String :=
    match fuel with
    | 0 => []
    | Nat.succ fl =>
      match reSearchFrom ci dotAll re s i (s.length + 1) with
      | some (st, en, _) =>
        String.mk (sliceList s st en) :: go (if st < en then en else en + 1) fl
      | none => []

/-! ## Canonical model (`src/types.ts` Player/Lineup shapes)

The canonical `Lineup.players` object maps slot names either to a single
`Player` (starting slots) or to an array of players (the `BENCH` key).  It
is modelled as an insertion-ordered association list over a sum type. -/

structure Player where
  id : String
  name : String
  position : String
  team : String
  injuryStatus : String
  projectedPoints : Option ℚ
  actualPoints : Option ℚ
deriving DecidableEq, Repr

inductive SlotVal where
  | single : Player → SlotVal
  | arr : List Player → SlotVal
deriving DecidableEq, Repr

structure Lineup where
  id : String
  teamId : String
  week : Nat
  season : Int
  players : List (String × SlotVal)
  totalProjectedPoints : ℚ
deriving DecidableEq, Repr

/-- JS object assignment `m[k] = v`: replace the existing key in place,
otherwise append (preserving enumeration order). -/
def objInsert (m : List (String × SlotVal)) (k : String) (v : SlotVal) :
    List (String × SlotVal) :=
  if m.any (fun kv => kv.1 = k) then
    m.map (fun kv => if kv.1 = k then (k, v) else kv)
  else m ++ [(k, v)]

/-- Rational addition written through `mkRat` (definitionally unfoldable,
unlike the `@[irreducible]` instance addition; `qAdd_eq_add` below bridges
to `+`).  Used wherever the embedded code sums point values, so that
concrete lineups evaluate inside `decide`. -/
def qAdd (a b : ℚ) : ℚ := mkRat (a.num * b.den + b.num * a.den) (a.den * b.den)

/-- `qAdd` agrees with rational addition. -/
theorem qAdd_eq_add (a b : ℚ) : qAdd a b = a + b := (Rat.add_def' a b).symm

/-- `player.projectedPoints || 0`. -/
def projOrZero (p : Player) : ℚ := p.projectedPoints.getD 0

/-- Contribution of one slot value to the by-type sum: a single player
contributes its (defaulted) projection, an array is filtered out. -/
def singleProj : SlotVal → ℚ
  | .single p => projOrZero p
  | .arr _ => 0

/-- The aggregate the adapters compute:
`Object.values(players).filter(p => !Array.isArray(p)).reduce((s,p) => s + (p.projectedPoints || 0), 0)`. -/
def totalProjected (m : List (String × SlotVal)) : ℚ :=
  (m.filter (fun kv => match kv.2 with | .single _ => true | .arr _ => false)).foldl
    (fun s kv => qAdd s (singleProj kv.2)) 0

/-- Value of one slot when summing by slot NAME rather than by type: a
non-`BENCH` slot contributes everything stored under it, including the
contents of an array if one were ever stored there. -/
def slotAllProj : SlotVal → ℚ
  | .single p => projOrZero p
  | .arr l => (l.map projOrZero).sum

/-- The specification's reading of the aggregate: the sum of projected
points over all slots other than `BENCH` (slot-name filtering). -/
def slotNameProjSum (m : List (String × SlotVal)) : ℚ :=
  (m.filter (fun kv => kv.1 ≠ "BENCH")).foldl (fun s kv => s + slotAllProj kv.2) 0

/-- The canonical position vocabulary of `types.ts`. -/
def canonicalPositions : List String := ["QB", "RB", "WR", "TE", "K", "DEF", "FLEX"]

/-- The canonical injury-status vocabulary of `types.ts`. -/
def canonicalStatuses : List String := ["healthy", "questionable", "doubtful", "out"]

/-! ## Position / slot / injury mapping tables -/

/-- ESPN `defaultPositionId` table (`mapESPNPosition`). -/
def espnPositionTable : List (Nat × String) :=
  [(1, "QB"), (2, "RB"), (3, "WR"), (4, "TE"), (5, "K"), (16, "DEF")]

def mapESPNPosition (positionId : Nat) : String :=
  (espnPositionTable.lookup positionId).getD "UNKNOWN"

/-- ESPN `lineupSlotId` table (`mapESPNLineupPosition`); a missing key is
`|| null`. -/
def espnLineupSlotTable : List (Nat × String) :=
  [(0, "QB"), (1, "RB1"), (2, "RB2"), (3, "WR1"), (4, "WR2"), (5, "TE"),
   (6, "FLEX"), (7, "K"), (8, "DEF"), (20, "BENCH")]

def mapESPNLineupPosition (slotId : Nat) : Option String :=
  espnLineupSlotTable.lookup slotId

/-- ESPN `proTeamId` table (`mapESPNTeam`). -/
def espnTeamTable : List (Nat × String) :=
  [(1, "ATL"), (2, "BUF"), (3, "CHI"), (4, "CIN"), (5, "CLE"), (6, "DAL"),
   (7, "DEN"), (8, "DET"), (9, "GB"), (10, "TEN"), (11, "IND"), (12, "KC"),
   (13, "LV"), (14, "LAR"), (15, "MIA"), (16, "MIN"), (17, "NE"), (18, "NO"),
   (19, "NYG"), (20, "NYJ"), (21, "PHI"), (22, "ARI"), (23, "PIT"), (24, "LAC"),
   (25, "SF"), (26, "SEA"), (27, "TB"), (28, "WSH"), (29, "CAR"), (30, "JAX"),
   (33, "BAL"), (34, "HOU")]

def mapESPNTeam (teamId : Nat) : String :=
  (espnTeamTable.lookup teamId).getD "UNK"

/-- ESPN injury-status table (`mapESPNInjuryStatus`). -/
def espnInjuryTable : List (String × String) :=
  [("ACTIVE", "healthy"), ("QUESTIONABLE", "questionable"),
   ("DOUBTFUL", "doubtful"), ("OUT", "out")]

def mapESPNInjuryStatus (status : String) : String :=
  (espnInjuryTable.lookup status).getD "healthy"

/-- Yahoo `display_position` table (`mapYahooPosition`); a missing key falls
back to `|| position`, the input itself. -/
def yahooPositionTable : List (String × String) :=
  [("QB", "QB"), ("RB", "RB"), ("WR", "WR"), ("TE", "TE"), ("K", "K"), ("DEF", "DEF")]

def mapYahooPosition (position : String) : String :=
  (yahooPositionTable.lookup position).getD position

/-- Yahoo `selected_position` table (`mapYahooLineupPosition`); `|| null`. -/
def yahooLineupSlotTable : List (String × String) :=
  [("QB", "QB"), ("RB", "RB1"), ("WR", "WR1"), ("TE", "TE"), ("K", "K"),
   ("DEF", "DEF"), ("W/R/T", "FLEX"), ("BN", "BENCH")]

def mapYahooLineupPosition (position : String) : Option String :=
  yahooLineupSlotTable.lookup position

/-- Yahoo injury-status table (`mapYahooInjuryStatus`). -/
def yahooInjuryTable : List (String × String) :=
  [("", "healthy"), ("Q", "questionable"), ("D", "doubtful"), ("O", "out")]

def mapYahooInjuryStatus (status : String) : String :=
  (yahooInjuryTable.lookup status).getD "healthy"

/-- Sleeper position table (`mapSleeperPosition`); `|| position` fallback. -/
def sleeperPositionTable : List (String × String) :=
  [("QB", "QB"), ("RB", "RB"), ("WR", "WR"), ("TE", "TE"), ("K", "K"), ("DEF", "DEF")]

def mapSleeperPosition (position : String) : String :=
  (sleeperPositionTable.lookup position).getD position

/-- Sleeper injury-status table (`mapSleeperInjuryStatus`). -/
def sleeperInjuryTable : List (String × String) :=
  [("", "healthy"), ("Questionable", "questionable"), ("Doubtful", "doubtful"),
   ("Out", "out")]

def mapSleeperInjuryStatus (status : String) : String :=
  (sleeperInjuryTable.lookup status).getD "healthy"

/-! ## ESPN adapter: `ESPNApiService.getTeamLineup` (API path) -/

structure ESPNStatEntry where
  statSourceId : Nat
  statSplitTypeId : Nat
  appliedTotal : Option ℚ
deriving DecidableEq, Repr

structure ESPNRawPlayer where
  id : String
  fullName : String
  defaultPositionId : Nat
  proTeamId : Nat
  injuryStatus : String
  stats : Option (List ESPNStatEntry)
deriving DecidableEq, Repr

structure ESPNRosterEntry where
  lineupSlotId : Nat
  player : ESPNRawPlayer
deriving DecidableEq, Repr

structure ESPNTeamData where
  id : String
  roster : List ESPNRosterEntry
deriving DecidableEq, Repr

/-- `player.stats?.find(st => st.statSourceId === src && st.statSplitTypeId === split)?.appliedTotal`. -/
def findStat (stats : Option (List ESPNStatEntry)) (src split : Nat) : Option ℚ :=
  match stats with
  | none => none
  | some l =>
    match l.find? (fun st => st.statSourceId = src ∧ st.statSplitTypeId = split) with
    | none => none
    | some st => st.appliedTotal

/-- The canonical player an ESPN roster entry is translated to (the same
field set is built for starters and for bench entries). -/
def espnMkPlayer (e : ESPNRosterEntry) : Player :=
  { id := e.player.id
    name := e.player.fullName
    position := mapESPNPosition e.player.defaultPositionId
    team := mapESPNTeam e.player.proTeamId
    injuryStatus := mapESPNInjuryStatus e.player.injuryStatus
    projectedPoints := findStat e.player.stats 1 1
    actualPoints := findStat e.player.stats 0 1 }

/-- Starting-slot pass of `ESPNApiService.getTeamLineup`:
`if (lineupPosition && lineupPosition !== 'BENCH') players[lineupPosition] = {...}`. -/
def espnStarterFold (m : List (String × SlotVal)) (e : ESPNRosterEntry) :
    List (String × SlotVal) :=
  match mapESPNLineupPosition e.lineupSlotId with
  | some lp => if lp ≠ "BENCH" then objInsert m lp (.single (espnMkPlayer e)) else m
  | none => m

/-- Full `players` object of `ESPNApiService.getTeamLineup`: starting pass,
then `players.BENCH = benchPlayers` when the slot-20 filter is non-empty. -/
def espnBuildPlayers (roster : List ESPNRosterEntry) : List (String × SlotVal) :=
  let starters := roster.foldl espnStarterFold []
  let bench := (roster.filter (fun e => e.lineupSlotId = 20)).map espnMkPlayer
  if bench ≠ [] then objInsert starters "BENCH" (.arr bench) else starters

/-- `ESPNApiService.getTeamLineup` after the mRoster response arrives:
find the team, build the players object, compute the by-type total. -/
def espnGetTeamLineup (teams : List ESPNTeamData) (leagueId teamId : String)
    (week : Nat) (season : Int) : Except String Lineup :=
  match teams.find? (fun t => t.id = teamId) with
  | none => .error ("Team " ++ teamId ++ " not found in league " ++ leagueId)
  | some team =>
    let players := espnBuildPlayers team.roster
    .ok { id := "espn-" ++ teamId ++ "-" ++ toString week
          teamId := teamId
          week := week
          season := season
          players := players
          totalProjectedPoints := totalProjected players }

/-! ## Yahoo adapter: `YahooApiService.getTeamLineup` -/

/-- One element of
`data.fantasy_content.league[1].teams[0].team[1].roster[0].players`,
flattened through `player.player[0]` and the `?.total` optional chains. -/
structure YahooRawPlayer where
  player_id : String
  full : String
  display_position : String
  selected_position : String
  editorial_team_abbr : String
  injury_status : String
  projected_total : Option ℚ
  points_total : Option ℚ
deriving DecidableEq, Repr

def yahooMkPlayer (pd : YahooRawPlayer) : Player :=
  { id := pd.player_id
    name := pd.full
    position := mapYahooPosition pd.display_position
    team := pd.editorial_team_abbr
    injuryStatus := mapYahooInjuryStatus pd.injury_status
    projectedPoints := pd.projected_total
    actualPoints := pd.points_total }

/-- Starting-slot pass of `YahooApiService.getTeamLineup`.  NOTE the code
compares the MAPPED slot against the RAW `'BN'` token
(`if (lineupPosition && lineupPosition !== 'BN')`), so a bench entry
(mapped to `'BENCH'`) passes the guard and is first stored as a single
player under the `BENCH` key; the bench array assignment below then
overwrites it. -/
def yahooStarterFold (m : List (String × SlotVal)) (pd : YahooRawPlayer) :
    List (String × SlotVal) :=
  match mapYahooLineupPosition pd.selected_position with
  | some lp => if lp ≠ "BN" then objInsert m lp (.single (yahooMkPlayer pd)) else m
  | none => m

def yahooBuildPlayers (roster : List YahooRawPlayer) : List (String × SlotVal) :=
  let starters := roster.foldl yahooStarterFold []
  let bench := (roster.filter (fun pd => pd.selected_position = "BN")).map yahooMkPlayer
  if bench ≠ [] then objInsert starters "BENCH" (.arr bench) else starters

def yahooGetTeamLineup (roster : List YahooRawPlayer) (teamId : String)
    (week : Nat) (season : Int) : Lineup :=
  let players := yahooBuildPlayers roster
  { id := "yahoo-" ++ teamId ++ "-" ++ toString week
    teamId := teamId
    week := week
    season := season
    players := players
    totalProjectedPoints := totalProjected players }

/-! ## Sleeper adapter: `SleeperApiService.getTeamLineup` -/

structure SleeperRawPlayer where
  full_name : String
  position : String
  team : String
  injury_status : String
deriving DecidableEq, Repr

structure SleeperRoster where
  roster_id : String
deriving DecidableEq, Repr

structure SleeperMatchup where
  roster_id : String
  starters : List String
  starters_points : List ℚ
deriving DecidableEq, Repr

/-- The nine starting slots hard-coded by the Sleeper adapter. -/
def sleeperLineupPositions : List String :=
  ["QB", "RB1", "RB2", "WR1", "WR2", "TE", "FLEX", "K", "DEF"]

/-- Starter at `index`: `projectedPoints: 0` always;
`actualPoints: matchup.starters_points[index] || 0`. -/
def sleeperMkStarter (playerId : String) (pl : SleeperRawPlayer)
    (pts : Option ℚ) : Player :=
  { id := playerId
    name := pl.full_name
    position := mapSleeperPosition pl.position
    team := pl.team
    injuryStatus := mapSleeperInjuryStatus pl.injury_status
    projectedPoints := some 0
    actualPoints := some (pts.getD 0) }

/-- Bench entry built from `matchup.starters.slice(9)`: both point fields
are the literal 0. -/
def sleeperMkBench (playerId : String) (pl : SleeperRawPlayer) : Player :=
  { id := playerId
    name := pl.full_name
    position := mapSleeperPosition pl.position
    team := pl.team
    injuryStatus := mapSleeperInjuryStatus pl.injury_status
    projectedPoints := some 0
    actualPoints := some 0 }

/-- `lineupPositions.forEach((position, index) => ...)`. -/
def sleeperStarterFold (matchup : SleeperMatchup)
    (allPlayers : List (String × SleeperRawPlayer))
    (m : List (String × SlotVal)) (pi : Nat × String) : List (String × SlotVal) :=
  match matchup.starters.get? pi.1 with
  | some playerId =>
    if playerId ≠ "" ∧ playerId ≠ "0" then
      match allPlayers.lookup playerId with
      | some pl =>
        objInsert m pi.2
          (.single (sleeperMkStarter playerId pl (matchup.starters_points.get? pi.1)))
      | none => m
    else m
  | none => m

def sleeperBuildPlayers (matchup : SleeperMatchup)
    (allPlayers : List (String × SleeperRawPlayer)) : List (String × SlotVal) :=
  let starters := sleeperLineupPositions.enum.foldl
    (fun m ip => sleeperStarterFold matchup allPlayers m (ip.1, ip.2)) []
  let bench := ((matchup.starters.drop 9).filter
      (fun playerId => playerId ≠ "" ∧ playerId ≠ "0")).filterMap
    (fun playerId => (allPlayers.lookup playerId).map (sleeperMkBench playerId))
  if bench ≠ [] then objInsert starters "BENCH" (.arr bench) else starters

/-- `SleeperApiService.getTeamLineup` after all four fetches: the roster
must contain the team id; a missing matchup leaves `players` empty.  The
`league.season` string is threaded already parsed to an integer. -/
def sleeperGetTeamLineup (rosters : List SleeperRoster)
    (matchups : List SleeperMatchup)
    (allPlayers : List (String × SleeperRawPlayer))
    (leagueSeason : Int) (leagueId teamId : String) (week : Nat) :
    Except String Lineup :=
  match rosters.find? (fun r => r.roster_id = teamId) with
  | none => .error ("Team " ++ teamId ++ " not found in league " ++ leagueId)
  | some _ =>
    let players :=
      match matchups.find? (fun m => m.roster_id = teamId) with
      | some matchup => sleeperBuildPlayers matchup allPlayers
      | none => []
    .ok { id := "sleeper-" ++ teamId ++ "-" ++ toString week
          teamId := teamId
          week := week
          season := leagueSeason
          players := players
          totalProjectedPoints := totalProjected players }

/-! ## ESPN scrape pipeline: regex pattern transcriptions

Every pattern below transcribes one regex literal from
`ESPNApiService`; `i`/`s` flags become the `ci`/`dotAll` arguments of the
matcher at the call site. -/

def reLit (s : String) : RE := .lit s.data

def seqList : List RE → RE
  | [] => .eps
  | [r] => r
  | r :: rs => .seq r (seqList rs)

def altList : List RE → RE
  | [] => .eps
  | [r] => r
  | r :: rs => .alt r (altList rs)

def notGt : RE := .cls true [('>', '>')]

def notQuote : RE := .cls true [('"', '"')]

def notLt : RE := .cls true [('<', '<')]

def wsCls : RE :=
  .cls false [(' ', ' '), ('\t', '\t'), ('\n', '\n'), ('\r', '\r'), ('\x0b', '\x0b'), ('\x0c', '\x0c')]

def digitCls : RE := .cls false [('0', '9')]

def upperCls : RE := .cls false [('A', 'Z')]

/-- `r+` (greedy). -/
def plusG (r : RE) : RE := .seq r (.starG r)

/-- `r{0,n}` (greedy). -/
def repMaxG (r : RE) : Nat → RE
  | 0 => .eps
  | n + 1 => .opt (.seq r (repMaxG r n))

/-- `r{2,4}` (greedy). -/
def rep2to4 (r : RE) : RE := .seq r (.seq r (.opt (.seq r (.opt r))))

/-- `<[^>]*>`. -/
def tagRE : RE := seqList [reLit "<", .starG notGt, reLit ">"]

/-- `<\/[^>]*>`. -/
def closeTagRE : RE := seqList [reLit "</", .starG notGt, reLit ">"]

/-- `(QB|RB|WR|TE|FLEX|D\/ST|WR\/TE)`. -/
def positionAltRE : RE :=
  altList [reLit "QB", reLit "RB", reLit "WR", reLit "TE", reLit "FLEX",
           reLit "D/ST", reLit "WR/TE"]

/-- `/(?:<[^>]*>)?(QB|RB|WR|TE|FLEX|D\/ST|WR\/TE)(?:<\/[^>]*>)?/i` (probe). -/
def probePosRE : RE := .seq (.opt tagRE) (.seq (.group positionAltRE) (.opt closeTagRE))

/-- `/(?:<[^>]*>)?([A-Z]{2,4})(?:<\/[^>]*>)?/` (probe team). -/
def probeTeamRE : RE := .seq (.opt tagRE) (.seq (.group (rep2to4 upperCls)) (.opt closeTagRE))

/-- `/(\d+\.\d+)/g`. -/
def pointsRE : RE := .group (seqList [plusG digitCls, reLit ".", plusG digitCls])

/-- `` new RegExp(`.{0,500}NAME.{0,500}`, 'gi') `` for one probe name. -/
def contextRE (name : String) : RE :=
  .seq (repMaxG .dot 500) (.seq (.lit name.data) (repMaxG .dot 500))

/-- `/<tr[^>]*class="[^"]*Table__TR[^"]*"[^>]*>(.*?)<\/tr>/gs`. -/
def tableRowRE : RE :=
  seqList [reLit "<tr", .starG notGt, reLit "class=\"", .starG notQuote,
           reLit "Table__TR", .starG notQuote, reLit "\"", .starG notGt, reLit ">",
           .group (.starL .dot), reLit "</tr>"]

/-- `/<a[^>]*>([^<]+)<\/a>/`. -/
def anchorRE : RE := seqList [reLit "<a", .starG notGt, reLit ">", .group (plusG notLt), reLit "</a>"]

/-- `/(?:<div[^>]*>)?(QB|RB|WR|TE|FLEX|D\/ST|WR\/TE)(?:<\/div>)?/i` (table row). -/
def tablePosRE : RE :=
  .seq (.opt (seqList [reLit "<div", .starG notGt, reLit ">"]))
    (.seq (.group positionAltRE) (.opt (reLit "</div>")))

/-- `/(?:<span[^>]*>)?([A-Z]{2,4})(?:<\/span>)?/` (table row team). -/
def tableTeamRE : RE :=
  .seq (.opt (seqList [reLit "<span", .starG notGt, reLit ">"]))
    (.seq (.group (rep2to4 upperCls)) (.opt (reLit "</span>")))

/-- The eight team-name patterns of `extractTeamName`, in source order
(all carry the `i` flag). -/
def teamNamePatterns : List RE :=
  [ seqList [reLit "<span", .starG notGt, reLit "class=\"", .starG notQuote,
             reLit "teamName", .starG notQuote, reLit "\"", .starG notGt, reLit ">",
             .group (plusG notLt), reLit "</span>"],
    seqList [reLit "<div", .starG notGt, reLit "class=\"", .starG notQuote,
             reLit "teamName", .starG notQuote, reLit "\"", .starG notGt, reLit ">",
             .group (plusG notLt), reLit "</div>"],
    seqList [reLit "<h1", .starG notGt, reLit "class=\"", .starG notQuote,
             reLit "teamName", .starG notQuote, reLit "\"", .starG notGt, reLit ">",
             .group (plusG notLt), reLit "</h1>"],
    seqList [reLit "<title", .starG notGt, reLit ">", .group (plusG notLt), reLit "</title>"],
    seqList [reLit "<h1", .starG notGt, reLit "class=\"", .starG notQuote,
             reLit "team-name", .starG notQuote, reLit "\"", .starG notGt, reLit ">",
             .group (plusG notLt), reLit "</h1>"],
    seqList [reLit "<h1", .starG notGt, reLit ">", .group (plusG notLt), reLit "</h1>"],
    seqList [reLit "\"teamName\":\"", .group (plusG notQuote), reLit "\""],
    seqList [reLit "\"name\":\"", .group (plusG notQuote), reLit "\""] ]

/-- `/window\.__XXX__\s*=\s*({.*?});/` (no flags); the captured group is
the brace-delimited blob text. -/
def jsonBlobRE (marker : String) : RE :=
  seqList [.lit marker.data, .starG wsCls, reLit "=", .starG wsCls,
           .group (seqList [reLit "\x7b", .starL .dot, reLit "\x7d"]), reLit ";"]

/-! ## JSON validity (`JSON.parse` succeeds or throws)

`parseJSONTeamData` never inspects the parsed structure, so
`extractJSONData` is modelled as returning the raw blob text when
`JSON.parse` would accept it and `none` when it would throw (the throw is
caught and collapsed to `null` in the source). -/

def lbraceC : Char := '\x7b'

def rbraceC : Char := '\x7d'

def skipJsonWs (s : List Char) : List Char :=
  s.dropWhile (fun c => c = ' ' ∨ c = '\t' ∨ c = '\n' ∨ c = '\r')

def isHexDigitC (c : Char) : Bool :=
  ('0' ≤ c ∧ c ≤ '9') ∨ ('a' ≤ c ∧ c ≤ 'f') ∨ ('A' ≤ c ∧ c ≤ 'F')

/-- Consume the remainder of a JSON string (after the opening quote). -/
def jsonStringRest : Nat → List Char → Option (List Char)
  | 0, _ => none
  | _, [] => none
  | fl + 1, c :: rest =>
    if c = '"' then some rest
    else if c = '\\' then
      match rest with
      | [] => none
      | e :: rest2 =>
        if e = 'u' then
          match rest2 with
          | a :: b :: c2 :: d :: rest3 =>
            if isHexDigitC a ∧ isHexDigitC b ∧ isHexDigitC c2 ∧ isHexDigitC d then
              jsonStringRest fl rest3
            else none
          | _ => none
        else if e = '"' ∨ e = '\\' ∨ e = '/' ∨ e = 'b' ∨ e = 'f' ∨ e = 'n' ∨ e = 'r' ∨ e = 't' then
          jsonStringRest fl rest2
        else none
    else if 32 ≤ c.toNat then jsonStringRest fl rest
    else none

/-- Optional fraction and exponent of a JSON number. -/
def jsonFracExp (s : List Char) : Option (List Char) :=
  let s1 : Option (List Char) :=
    match s with
    | '.' :: r =>
      let ds := takeDigits r
      if ds = [] then none else some (r.drop ds.length)
    | _ => some s
  match s1 with
  | none => none
  | some s2 =>
    match s2 with
    | e :: r =>
      if e = 'e' ∨ e = 'E' then
        let r2 := match r with
          | c :: rr => if c = '+' ∨ c = '-' then rr else r
          | [] => r
        let ds := takeDigits r2
        if ds = [] then none else some (r2.drop ds.length)
      else some s2
    | [] => some s2

/-- Consume a JSON number (leading `-` allowed, no leading zeros). -/
def jsonNumberRest (s : List Char) : Option (List Char) :=
  let s0 := match s with
    | '-' :: r => r
    | _ => s
  match s0 with
  | '0' :: r => jsonFracExp r
  | c :: _ =>
    if '1' ≤ c ∧ c ≤ '9' then jsonFracExp (s0.drop (takeDigits s0).length) else none
  | [] => none

/-- JSON recursive-descent recognizer.  `mode` 0 parses one value, 1 the
members of an object (after the opening brace, first key expected), 2 the
elements of an array; returns the unconsumed remainder on acceptance. -/
def jsonRun : Nat → Nat → List Char → Option (List Char)
  | 0, _, _ => none
  | fl + 1, 0, s =>
    let s := skipJsonWs s
    match s with
    | [] => none
    | c :: rest =>
      if c = '"' then jsonStringRest (rest.length + 1) rest
      else if c = lbraceC then
        match skipJsonWs rest with
        | d :: r2 => if d = rbraceC then some r2 else jsonRun fl 1 (skipJsonWs rest)
        | [] => none
      else if c = '[' then
        match skipJsonWs rest with
        | d :: r2 => if d = ']' then some r2 else jsonRun fl 2 (skipJsonWs rest)
        | [] => none
      else if litAt false s 0 "true".data = some 4 then some (s.drop 4)
      else if litAt false s 0 "false".data = some 5 then some (s.drop 5)
      else if litAt false s 0 "null".data = some 4 then some (s.drop 4)
      else jsonNumberRest s
  | fl + 1, 1, s =>
    match skipJsonWs s with
    | '"' :: r =>
      match jsonStringRest (r.length + 1) r with
      | some r2 =>
        match skipJsonWs r2 with
        | ':' :: r4 =>
          match jsonRun fl 0 r4 with
          | some r5 =>
            match skipJsonWs r5 with
            | ',' :: r7 => jsonRun fl 1 r7
            | c :: r7 => if c = rbraceC then some r7 else none
            | [] => none
          | none => none
        | _ => none
      | none => none
    | _ => none
  | fl + 1, _, s =>
    match jsonRun fl 0 s with
    | some r =>
      match skipJsonWs r with
      | ',' :: r2 => jsonRun fl 2 r2
      | ']' :: r2 => some r2
      | _ => none
    | none => none

/-- Would `JSON.parse` accept `s`? -/
def jsonValid (s : String) : Bool :=
  match jsonRun (2 * s.data.length + 4) 0 s.data with
  | some rest => skipJsonWs rest = []
  | none => false

/-- `extractJSONData`: first marker pattern that matches wins; an invalid
blob makes `JSON.parse` throw, which the catch turns into `null` without
trying the second pattern. -/
def extractJSONData (html : String) : Option String :=
  match reSearch false false (jsonBlobRE "window.__INITIAL_STATE__") html.data with
  | some (_, _, caps) =>
    let blob := capN caps 0
    if jsonValid blob then some blob else none
  | none =>
    match reSearch false false (jsonBlobRE "window.__APP_DATA__") html.data with
    | some (_, _, caps) =>
      let blob := capN caps 0
      if jsonValid blob then some blob else none
    | none => none

/-! ## ESPN scrape pipeline: players, team name, record -/

/-- Player objects produced by the HTML-scrape path (also the shape of the
mock players). -/
structure ScrapedPlayer where
  id : String
  name : String
  position : String
  team : String
  points : ℚ
  projectedPoints : ℚ
  status : String
deriving DecidableEq, Repr

/-- `getMockPlayers`. -/
def getMockPlayers : List ScrapedPlayer :=
  [ ⟨"1", "Josh Allen", "QB", "BUF", mkRat 254 10, mkRat 221 10, "active"⟩,
    ⟨"2", "Christian McCaffrey", "RB", "SF", mkRat 182 10, mkRat 168 10, "active"⟩ ]

/-- The hard-coded candidate list of the name-probe strategy. -/
def knownPlayerNames : List String :=
  ["Jalen Hurts", "Kyler Murray", "Kyren Williams", "Ladd McConkey",
   "Marvin Harrison Jr.", "Christian McCaffrey", "Jonathan Taylor",
   "David Montgomery", "Mark Andrews", "Lions"]

/-- One iteration of the name-probe loop: search for the name
(case-insensitively), pull its `.{0,500}`-window context, and extract
position/team/points from the context with the probe regexes. -/
def probeOne (html : List Char) (name : String) (idx : Nat) : Option ScrapedPlayer :=
  if containsCI html name.data then
    match reSearch true false (contextRE name) html with
    | some (st, en, _) =>
      let context := sliceList html st en
      let position :=
        match reSearch true false probePosRE context with
        | some (_, _, caps) => capN caps 0
        | none => "UNK"
      let team :=
        match reSearch false false probeTeamRE context with
        | some (_, _, caps) => capN caps 0
        | none => "UNK"
      let pts := reSearchAll false false pointsRE context
      some { id := "espn_" ++ toString (idx + 1)
             name := name
             position := position
             team := team
             points := ((pts.get? 1).map parseDecQ).getD 0
             projectedPoints := ((pts.get? 0).map parseDecQ).getD 0
             status := "active" }
    | none => none
  else none

def probeLoop (html : List Char) : List String → List ScrapedPlayer → List ScrapedPlayer
  | [], acc => acc
  | n :: ns, acc =>
    match probeOne html n acc.length with
    | some p => probeLoop html ns (acc ++ [p])
    | none => probeLoop html ns acc

/-- The name-probe strategy on its own. -/
def probePlayers (html : String) : List ScrapedPlayer :=
  probeLoop html.data knownPlayerNames []

/-- One table row: skipped when it contains a header/total/bench/IR marker,
otherwise the anchor text is the player name and position/team/points are
extracted with the row regexes. -/
def tableStep (row : String) (idx : Nat) : Option ScrapedPlayer :=
  if containsSub row "STARTERS" ∨ containsSub row "TOTALS" ∨
      containsSub row "Bench" ∨ containsSub row "IR" then none
  else
    match reSearch false false anchorRE row.data with
    | some (_, _, caps) =>
      let playerName := jsTrim (capN caps 0)
      let position :=
        match reSearch true false tablePosRE row.data with
        | some (_, _, caps2) => capN caps2 0
        | none => "UNK"
      let team :=
        match reSearch false false tableTeamRE row.data with
        | some (_, _, caps2) => capN caps2 0
        | none => "UNK"
      let pts := reSearchAll false false pointsRE row.data
      some { id := "espn_" ++ toString (idx + 1)
             name := playerName
             position := position
             team := team
             points := ((pts.get? 1).map parseDecQ).getD 0
             projectedPoints := ((pts.get? 0).map parseDecQ).getD 0
             status := "active" }
    | none => none

def tableLoop (rows : List String) (acc : List ScrapedPlayer) : List ScrapedPlayer :=
  rows.foldl
    (fun acc row =>
      match tableStep row acc.length with
      | some p => acc ++ [p]
      | none => acc) acc

/-- All `Table__TR` rows of the page (`gs` flags: global, dot-all). -/
def tableRowsOf (html : String) : List String :=
  reSearchAll false true tableRowRE html.data

/-- The table-row strategy on its own. -/
def tableRowPlayers (html : String) : List ScrapedPlayer :=
  tableLoop (tableRowsOf html) []

/-- `extractPlayers`: the name-probe loop runs first and returns early when
it found anyone; only then does the table-row loop run (over the same,
still-empty, accumulator); mock players are the terminal fallback. -/
def extractPlayers (html : String) : List ScrapedPlayer :=
  let players := probeLoop html.data knownPlayerNames []
  if players ≠ [] then players
  else
    let players2 := tableLoop (tableRowsOf html) players
    if players2 ≠ [] then players2 else getMockPlayers

/-- The three `replace` clean-ups applied to a candidate team name. -/
def teamNameClean (name : String) : String :=
  jsStripLead (jsStripTail (jsStripLead name "Fantasy Football - ") " - ESPN")
    "ESPN Fantasy Football - "

def extractTeamNameLoop (html : List Char) : List RE → String
  | [] => "ESPN Team"
  | p :: ps =>
    match reSearch true false p html with
    | some (_, _, caps) =>
      let name := teamNameClean (jsTrim (capN caps 0))
      if name ≠ "" then name else extractTeamNameLoop html ps
    | none => extractTeamNameLoop html ps

def extractTeamName (html : String) : String :=
  extractTeamNameLoop html.data teamNamePatterns

structure TeamRecord where
  wins : Int
  losses : Int
  ties : Int
deriving DecidableEq, Repr

/-- The four record patterns, with a flag distinguishing the 3-group JSON
shapes (`match.length === 4`) from the 1-group text shapes. -/
def recordPatterns : List (RE × Bool) :=
  [ (seqList [reLit "<span", .starG notGt, reLit "class=\"", .starG notQuote,
              reLit "team-record", .starG notQuote, reLit "\"", .starG notGt, reLit ">",
              .group (plusG notLt), reLit "</span>"], false),
    (seqList [reLit "<div", .starG notGt, reLit "class=\"", .starG notQuote,
              reLit "team-record", .starG notQuote, reLit "\"", .starG notGt, reLit ">",
              .group (plusG notLt), reLit "</div>"], false),
    (seqList [reLit "\"record\":", .starG wsCls, reLit "\x7b", .starG wsCls,
              reLit "\"wins\":", .starG wsCls, .group (plusG digitCls), reLit ",",
              .starG wsCls, reLit "\"losses\":", .starG wsCls, .group (plusG digitCls),
              reLit ",", .starG wsCls, reLit "\"ties\":", .starG wsCls,
              .group (plusG digitCls)], true),
    (seqList [reLit "\"wins\":", .starG wsCls, .group (plusG digitCls), .starL .dot,
              reLit "\"losses\":", .starG wsCls, .group (plusG digitCls), .starL .dot,
              reLit "\"ties\":", .starG wsCls, .group (plusG digitCls)], true) ]

def extractRecordLoop (html : List Char) : List (RE × Bool) → TeamRecord
  | [] => ⟨3, 1, 0⟩
  | (p, isJson) :: ps =>
    match reSearch true false p html with
    | some (_, _, caps) =>
      if isJson then
        ⟨jsParseIntD (capN caps 0), jsParseIntD (capN caps 1), jsParseIntD (capN caps 2)⟩
      else
        let recordText := jsTrim (capN caps 0)
        let parts := jsSplit recordText "-"
        if 2 ≤ parts.length then
          ⟨jsParseIntD (parts.getD 0 ""), jsParseIntD (parts.getD 1 ""),
            match parts.get? 2 with
            | some t => if t ≠ "" then jsParseIntD t else 0
            | none => 0⟩
        else extractRecordLoop html ps
    | none => extractRecordLoop html ps

def extractRecord (html : String) : TeamRecord :=
  extractRecordLoop html.data recordPatterns

/-! ## ESPN scrape pipeline: team assembly and fallback -/

/-- Shape of `createMockTeamData`. -/
structure MockTeamData where
  id : String
  name : String
  platform : String
  leagueId : String
  season : Int
  record : TeamRecord
  lineup : List (String × List ScrapedPlayer)
  totalProjectedPoints : ℚ
deriving DecidableEq, Repr

/-- `createMockTeamData` (the `season` string goes through `parseInt`,
modelled by `jsParseIntD`; point decimals are written as exact tenths,
e.g. `mkRat 254 10` is 25.4). -/
def createMockTeamData (leagueId teamId season : String) : MockTeamData :=
  { id := teamId
    name := "ESPN Team " ++ teamId
    platform := "ESPN"
    leagueId := leagueId
    season := jsParseIntD season
    record := ⟨3, 1, 0⟩
    lineup :=
      [ ("QB", [⟨"1", "Josh Allen", "QB", "BUF", mkRat 254 10, mkRat 221 10, "active"⟩]),
        ("RB", [⟨"2", "Christian McCaffrey", "RB", "SF", mkRat 182 10, mkRat 168 10, "active"⟩,
                ⟨"3", "Derrick Henry", "RB", "TEN", mkRat 156 10, mkRat 142 10, "active"⟩]),
        ("WR", [⟨"4", "Tyreek Hill", "WR", "MIA", mkRat 128 10, mkRat 115 10, "active"⟩,
                ⟨"5", "Davante Adams", "WR", "LV", mkRat 104 10, mkRat 98 10, "active"⟩]),
        ("TE", [⟨"6", "Travis Kelce", "TE", "KC", mkRat 82 10, mkRat 75 10, "active"⟩]),
        ("FLEX", []),
        ("K", [⟨"7", "Justin Tucker", "K", "BAL", mkRat 60 10, mkRat 55 10, "active"⟩]),
        ("DEF", [⟨"8", "Buffalo Bills", "D/ST", "BUF", mkRat 42 10, mkRat 38 10, "active"⟩]),
        ("BENCH", []) ]
    totalProjectedPoints := mkRat 904 10 }

/-- Shape of the lineup assembled by the successful HTML-parse branch. -/
structure HtmlLineup where
  id : String
  teamId : String
  week : Nat
  players : List ScrapedPlayer
  totalProjectedPoints : ℚ
  totalActualPoints : ℚ
deriving DecidableEq, Repr

/-- Shape of the team object assembled by the successful HTML-parse branch. -/
structure HtmlTeamData where
  id : String
  name : String
  platform : String
  leagueId : String
  leagueName : String
  ownerId : String
  record : TeamRecord
  season : Int
  isActive : Bool
  lineup : HtmlLineup
deriving DecidableEq, Repr

/-- A scraped team is either the mock/placeholder shape or the
HTML-extraction shape (structurally distinct objects in the source). -/
inductive ScrapeTeam where
  | mock : MockTeamData → ScrapeTeam
  | html : HtmlTeamData → ScrapeTeam
deriving DecidableEq, Repr

/-- `parseJSONTeamData`: ignores the parsed blob and returns the mock
data, overriding the name when one was extracted
(`mockData.name = teamName || mockData.name`). -/
def parseJSONTeamData (jsonData : String) (leagueId teamId season teamName : String) :
    MockTeamData :=
  let mockData := createMockTeamData leagueId teamId season
  let _ := jsonData
  { mockData with name := if teamName ≠ "" then teamName else mockData.name }

/-- `parseTeamPage`: extract name/record/players, then prefer the
structured JSON blob; else use the HTML extraction when it produced
players AND a non-default team name; else fall back to mock data (with the
extracted name when it is not the default). -/
def parseTeamPage (html leagueId teamId season : String) : ScrapeTeam :=
  let teamName := extractTeamName html
  let record := extractRecord html
  let players := extractPlayers html
  let jsonData := extractJSONData html
  match jsonData with
  | some j => .mock (parseJSONTeamData j leagueId teamId season teamName)
  | none =>
    if players ≠ [] ∧ teamName ≠ "ESPN Team" then
      .html
        { id := "espn_" ++ teamId
          name := teamName
          platform := "ESPN"
          leagueId := leagueId
          leagueName := "ESPN League " ++ leagueId
          ownerId := "current_user"
          record := record
          season := jsParseIntD season
          isActive := true
          lineup :=
            { id := "lineup_" ++ teamId
              teamId := "espn_" ++ teamId
              week := 1
              players := players
              totalProjectedPoints := players.foldl (fun s p => qAdd s p.projectedPoints) 0
              totalActualPoints := players.foldl (fun s p => qAdd s p.points) 0 } }
    else
      let mockData := createMockTeamData leagueId teamId season
      .mock { mockData with name := if teamName ≠ "ESPN Team" then teamName else mockData.name }

/-! ## ESPN session state machine and `getTeamFromUrl` -/

structure ESPNAuthSession where
  isAuthenticated : Bool
  cookies : String
  expiresAt : Int
  username : Option String
deriving DecidableEq, Repr

/-- In-memory session plus the persisted `espn_auth_session` storage entry. -/
structure ESPNState where
  authSession : Option ESPNAuthSession
  storage : Option ESPNAuthSession
deriving DecidableEq, Repr

/-- `clearSession`: null the in-memory session and remove the storage key. -/
def clearSessionRun (_ : ESPNState) : ESPNState := ⟨none, none⟩

/-- `isAuthenticated()`: its boolean result, the state after the call, and
the number of `clearSession` invocations the call performed. -/
def isAuthenticatedRun (now : Int) (st : ESPNState) : Bool × ESPNState × Nat :=
  match st.authSession with
  | none => (false, st, 0)
  | some s =>
    if s.expiresAt < now then (false, clearSessionRun st, 1)
    else (s.isAuthenticated, st, 0)

/-- The two proxy fetches `getTeamFromUrl` can issue. -/
inductive NetReq where
  | corsAnywhere (url : String) (cookies : String)
  | allorigins (url : String)
deriving DecidableEq, Repr

/-- `new URLSearchParams(teamUrl.split('?')[1])`. -/
def urlQueryOf (teamUrl : String) : List (String × String) :=
  parseQuery (((jsSplit teamUrl "?").get? 1).getD "")

/-- `urlParams.get('season') || new Date().getFullYear().toString()`. -/
def urlSeasonOf (teamUrl defaultSeason : String) : String :=
  if jsTruthy (queryGet (urlQueryOf teamUrl) "season") then
    (queryGet (urlQueryOf teamUrl) "season").getD ""
  else defaultSeason

def teamPageUrl (leagueId teamId season : String) : String :=
  "https://fantasy.espn.com/football/team?leagueId=" ++ leagueId ++
    "&teamId=" ++ teamId ++ "&season=" ++ season

/-- Content inspection of the fetched page: an HTML page (`<!DOCTYPE`)
containing a login/signin marker throws the authentication-failure error;
everything else is handed to `parseTeamPage`. -/
def checkLoginAndParse (html leagueId teamId season : String) : Except String ScrapeTeam :=
  if containsSub html "<!DOCTYPE" ∧ (containsSub html "login" ∨ containsSub html "signin") then
    .error "Authentication failed - got login page instead of team data"
  else .ok (parseTeamPage html leagueId teamId season)

/-- The `try` block of `getTeamFromUrl` (after the authentication guard):
parse the URL, fetch through cors-anywhere (with the session cookie), fall
back to allorigins (cookie-less), inspect, parse.  Returns the issued
network requests alongside the result. -/
def getTeamFromUrlCore (session : ESPNAuthSession) (teamUrl defaultSeason : String)
    (net : NetReq → Except String String) :
    Except String ScrapeTeam × List NetReq :=
  let q := urlQueryOf teamUrl
  let leagueId := queryGet q "leagueId"
  let teamId := queryGet q "teamId"
  let season := urlSeasonOf teamUrl defaultSeason
  if ¬ (jsTruthy leagueId ∧ jsTruthy teamId) then
    (.error "Invalid ESPN team URL. Must contain leagueId and teamId parameters.", [])
  else
    let url := teamPageUrl (leagueId.getD "") (teamId.getD "") season
    let req1 := NetReq.corsAnywhere url session.cookies
    match net req1 with
    | .ok html => (checkLoginAndParse html (leagueId.getD "") (teamId.getD "") season, [req1])
    | .error _ =>
      let req2 := NetReq.allorigins url
      match net req2 with
      | .ok html =>
        (checkLoginAndParse html (leagueId.getD "") (teamId.getD "") season, [req1, req2])
      | .error e => (.error e, [req1, req2])

/-- `getTeamFromUrl`: the authentication guard throws BEFORE the `try`
block (so that error propagates and no request is issued); any error
inside the `try` is caught and collapsed to mock data (interpolating
absent URL parameters as the string `"null"`).  The source calls
`isAuthenticated()` twice in a row (once inside a log statement); the
second call is a no-op on the state the first call produced, so one
modelled call yields the same result, state and request trace. -/
def getTeamFromUrlRun (now : Int) (defaultSeason : String) (st : ESPNState)
    (teamUrl : String) (net : NetReq → Except String String) :
    Except String ScrapeTeam × ESPNState × List NetReq :=
  let a := isAuthenticatedRun now st
  if ¬ a.1 then
    (.error "Not authenticated with ESPN. Please log in first.", a.2.1, [])
  else
    match a.2.1.authSession with
    | none => (.error "Not authenticated with ESPN. Please log in first.", a.2.1, [])
    | some session =>
      match getTeamFromUrlCore session teamUrl defaultSeason net with
      | (.ok t, reqs) => (.ok t, a.2.1, reqs)
      | (.error _, reqs) =>
        let q := urlQueryOf teamUrl
        let leagueId := (queryGet q "leagueId").getD "null"
        let teamId := (queryGet q "teamId").getD "null"
        let season := urlSeasonOf teamUrl defaultSeason
        (.ok (.mock (createMockTeamData leagueId teamId season)), a.2.1, reqs)

/-! ## Unified dispatcher (`UnifiedApiService`) -/

structure FantasyTeam where
  id : String
  name : String
  platform : String
  leagueId : String
  leagueName : String
  ownerId : String
  record : TeamRecord
  season : Int
  isActive : Bool
deriving DecidableEq, Repr

structure ConnectionResult where
  success : Bool
  platform : String
  teams : List FantasyTeam
  error : Option String
deriving DecidableEq, Repr

/-- The open credential map, restricted to the keys the dispatcher reads. -/
structure Credentials where
  leagueId : Option String
  teamId : Option String
  season : Option Int
  accessToken : Option String
deriving DecidableEq, Repr

/-- Template-literal interpolation of a possibly-undefined string. -/
def jsStr (o : Option String) : String := o.getD "undefined"

structure ESPNTeamMeta where
  id : String
  name : String
  record : TeamRecord
deriving DecidableEq, Repr

structure ESPNLeagueMeta where
  name : String
  season : Int
  teams : List ESPNTeamMeta
deriving DecidableEq, Repr

structure YahooTeamMeta where
  team_id : String
  name : String
  record : TeamRecord
deriving DecidableEq, Repr

structure YahooLeagueMeta where
  league_id : String
  name : String
  season : Int
  teams : List YahooTeamMeta
deriving DecidableEq, Repr

structure SleeperTeamMeta where
  team_id : String
  name : String
  record : TeamRecord
deriving DecidableEq, Repr

/-- Sleeper league metadata; `league.season` is a string in the upstream
API and goes through `parseInt` when the `FantasyTeam` is built — it is
threaded here already parsed. -/
structure SleeperLeagueMeta where
  name : String
  season : Int
  teams : List SleeperTeamMeta
deriving DecidableEq, Repr

/-- `connectESPN`: credential validation throws outside the inner `try`;
an adapter failure or missing team is re-thrown wrapped as
`` `ESPN connection failed: ${error}` ``. -/
def connectESPN (creds : Credentials) (espnLeague : Except String ESPNLeagueMeta) :
    Except String ConnectionResult :=
  if ¬ (jsTruthy creds.leagueId ∧ jsTruthy creds.teamId) then
    .error "ESPN requires league ID and team ID"
  else
    match espnLeague with
    | .error e => .error ("ESPN connection failed: Error: " ++ e)
    | .ok league =>
      match league.teams.find? (fun t => some t.id = creds.teamId) with
      | none =>
        .error ("ESPN connection failed: Error: Team " ++ jsStr creds.teamId ++
          " not found in league " ++ jsStr creds.leagueId)
      | some team =>
        .ok { success := true
              platform := "ESPN"
              teams := [{ id := "espn-" ++ jsStr creds.teamId
                          name := team.name
                          platform := "ESPN"
                          leagueId := jsStr creds.leagueId
                          leagueName := league.name
                          ownerId := "user-1"
                          record := team.record
                          season := league.season
                          isActive := true }]
              error := none }

def connectYahoo (creds : Credentials)
    (yahooLeagues : Except String (List YahooLeagueMeta)) :
    Except String ConnectionResult :=
  if ¬ jsTruthy creds.accessToken then
    .error "Yahoo requires access token"
  else
    match yahooLeagues with
    | .error e => .error ("Yahoo connection failed: Error: " ++ e)
    | .ok leagues =>
      match leagues.find? (fun l => some l.league_id = creds.leagueId) with
      | none =>
        .error ("Yahoo connection failed: Error: League " ++ jsStr creds.leagueId ++
          " not found")
      | some league =>
        match league.teams.find? (fun t => some t.team_id = creds.teamId) with
        | none =>
          .error ("Yahoo connection failed: Error: Team " ++ jsStr creds.teamId ++
            " not found in league " ++ jsStr creds.leagueId)
        | some team =>
          .ok { success := true
                platform := "Yahoo"
                teams := [{ id := "yahoo-" ++ jsStr creds.teamId
                            name := team.name
                            platform := "Yahoo"
                            leagueId := jsStr creds.leagueId
                            leagueName := league.name
                            ownerId := "user-1"
                            record := team.record
                            season := league.season
                            isActive := true }]
                error := none }

def connectSleeper (creds : Credentials)
    (sleeperLeague : Except String SleeperLeagueMeta) :
    Except String ConnectionResult :=
  if ¬ (jsTruthy creds.leagueId ∧ jsTruthy creds.teamId) then
    .error "Sleeper requires league ID and team ID"
  else
    match sleeperLeague with
    | .error e => .error ("Sleeper connection failed: Error: " ++ e)
    | .ok league =>
      match league.teams.find? (fun t => some t.team_id = creds.teamId) with
      | none =>
        .error ("Sleeper connection failed: Error: Team " ++ jsStr creds.teamId ++
          " not found in league " ++ jsStr creds.leagueId)
      | some team =>
        .ok { success := true
              platform := "Sleeper"
              teams := [{ id := "sleeper-" ++ jsStr creds.teamId
                          name := team.name
                          platform := "Sleeper"
                          leagueId := jsStr creds.leagueId
                          leagueName := league.name
                          ownerId := "user-1"
                          record := team.record
                          season := league.season
                          isActive := true }]
              error := none }

/-- The `switch` inside `connectPlatform`'s `try` block; the adapter
results stand for the awaited upstream calls. -/
def connectPlatformInner (platform : String) (creds : Credentials)
    (espnLeague : Except String ESPNLeagueMeta)
    (yahooLeagues : Except String (List YahooLeagueMeta))
    (sleeperLeague : Except String SleeperLeagueMeta) :
    Except String ConnectionResult :=
  if jsToLower platform = "espn" then connectESPN creds espnLeague
  else if jsToLower platform = "yahoo" then connectYahoo creds yahooLeagues
  else if jsToLower platform = "sleeper" then connectSleeper creds sleeperLeague
  else .error ("Unsupported platform: " ++ platform)

/-- `connectPlatform`: the surrounding catch converts any thrown error into
a failed `ConnectionResult` carrying the message. -/
def connectPlatform (platform : String) (creds : Credentials)
    (espnLeague : Except String ESPNLeagueMeta)
    (yahooLeagues : Except String (List YahooLeagueMeta))
    (sleeperLeague : Except String SleeperLeagueMeta) : ConnectionResult :=
  match connectPlatformInner platform creds espnLeague yahooLeagues sleeperLeague with
  | .ok r => r
  | .error e => { success := false, platform := platform, teams := [], error := some e }

/-- `UnifiedApiService.getTeamLineup`: a bare `switch` with NO try/catch;
the adapter call (injected as a function) is returned as-is, and an
unknown platform throws. -/
def dispatchGetTeamLineup (team : FantasyTeam) (week : Nat)
    (espnCall : String → String → Nat → Int → Except String Lineup)
    (yahooCall : String → String → Nat → Int → Except String Lineup)
    (sleeperCall : String → String → Nat → Except String Lineup) :
    Except String Lineup :=
  if team.platform = "ESPN" then
    espnCall team.leagueId (jsRemoveFirst team.id "espn-") week team.season
  else if team.platform = "Yahoo" then
    yahooCall team.leagueId (jsRemoveFirst team.id "yahoo-") week team.season
  else if team.platform = "Sleeper" then
    sleeperCall team.leagueId (jsRemoveFirst team.id "sleeper-") week
  else .error ("Unsupported platform: " ++ team.platform)

/-- `UnifiedApiService.updateTeamLineup`: same bare `switch`, returning the
adapter's boolean and propagating any adapter error. -/
def dispatchUpdateTeamLineup (team : FantasyTeam) (week : Nat)
    (lineup : List (String × SlotVal))
    (espnCall yahooCall sleeperCall :
      String → String → Nat → List (String × SlotVal) → Except String Bool) :
    Except String Bool :=
  if team.platform = "ESPN" then
    espnCall team.leagueId (jsRemoveFirst team.id "espn-") week lineup
  else if team.platform = "Yahoo" then
    yahooCall team.leagueId (jsRemoveFirst team.id "yahoo-") week lineup
  else if team.platform = "Sleeper" then
    sleeperCall team.leagueId (jsRemoveFirst team.id "sleeper-") week lineup
  else .error ("Unsupported platform: " ++ team.platform)

/-! ## Infrastructure lemmas -/

theorem mem_of_lookup_eq_some {β : Type} {l : List (String × β)} {k : String} {v : β}
    (h : l.lookup k = some v) : (k, v) ∈ l := by
  induction l with
  | nil => simp [List.lookup] at h
  | cons hd tl ih =>
    cases hb : (k == hd.1) with
    | true =>
      simp only [List.lookup, hb] at h
      injection h with h2
      have hk : k = hd.1 := by simpa using hb
      rw [hk, ← h2]
      simp
    | false =>
      simp only [List.lookup, hb] at h
      exact List.mem_cons_of_mem _ (ih h)

theorem natLookup_mem {β : Type} {l : List (Nat × β)} {k : Nat} {v : β}
    (h : l.lookup k = some v) : (k, v) ∈ l := by
  induction l with
  | nil => simp [List.lookup] at h
  | cons hd tl ih =>
    cases hb : (k == hd.1) with
    | true =>
      simp only [List.lookup, hb] at h
      injection h with h2
      have hk : k = hd.1 := by simpa using hb
      rw [hk, ← h2]
      simp
    | false =>
      simp only [List.lookup, hb] at h
      exact List.mem_cons_of_mem _ (ih h)

theorem lookup_eq_none_of_keys_ne {β : Type} {l : List (String × β)} {k : String}
    (h : ∀ p ∈ l, p.1 ≠ k) : l.lookup k = none := by
  induction l with
  | nil => simp [List.lookup]
  | cons hd tl ih =>
    have hb : (k == hd.1) = false := by
      simp only [beq_eq_false_iff_ne, ne_eq]
      exact fun he => h hd (by simp) he.symm
    simp only [List.lookup, hb]
    exact ih (fun p hp => h p (by simp [hp]))

/-- Membership after a JS-object insert: the element is the inserted pair,
or it was already present under a different key. -/
theorem mem_objInsert {m : List (String × SlotVal)} {k : String} {v : SlotVal}
    {kv : String × SlotVal} (h : kv ∈ objInsert m k v) :
    kv = (k, v) ∨ (kv ∈ m ∧ kv.1 ≠ k) := by
  unfold objInsert at h
  by_cases hany : m.any (fun kv => kv.1 = k)
  · rw [if_pos hany] at h
    rcases List.mem_map.1 h with ⟨kv', hmem, heq⟩
    by_cases hk : kv'.1 = k
    · left
      rw [← heq, if_pos hk]
    · right
      rw [← heq, if_neg hk]
      exact ⟨hmem, hk⟩
  · rw [if_neg hany] at h
    rcases List.mem_append.1 h with h1 | h1
    · right
      refine ⟨h1, fun hk => ?_⟩
      exact hany (List.any_eq_true.2 ⟨kv, h1, by simp [hk]⟩)
    · left
      simpa using h1

theorem lookup_map_replace_of_ne (m : List (String × SlotVal)) (k : String) (v : SlotVal)
    (k' : String) (h : k' ≠ k) :
    (m.map (fun kv => if kv.1 = k then (k, v) else kv)).lookup k' = m.lookup k' := by
  induction m with
  | nil => simp
  | cons hd tl ih =>
    by_cases hk : hd.1 = k
    · have hb1 : (k' == k) = false := by simpa using h
      have hb2 : (k' == hd.1) = false := by
        rw [hk]
        simpa using h
      rw [List.map_cons, if_pos hk]
      simp only [List.lookup, hb1, hb2]
      exact ih
    · rw [List.map_cons, if_neg hk]
      cases hb : (k' == hd.1) with
      | true => simp only [List.lookup, hb]
      | false =>
        simp only [List.lookup, hb]
        exact ih

theorem lookup_append_single_of_ne (m : List (String × SlotVal)) (k : String) (v : SlotVal)
    (k' : String) (h : k' ≠ k) : (m ++ [(k, v)]).lookup k' = m.lookup k' := by
  induction m with
  | nil =>
    have hb : (k' == k) = false := by simpa using h
    simp [List.lookup, hb]
  | cons hd tl ih =>
    rw [List.cons_append]
    cases hb : (k' == hd.1) with
    | true => simp only [List.lookup, hb]
    | false =>
      simp only [List.lookup, hb]
      exact ih

/-- Looking up a different key is unaffected by an insert. -/
theorem lookup_objInsert_ne (m : List (String × SlotVal)) (k : String) (v : SlotVal)
    (k' : String) (h : k' ≠ k) : (objInsert m k v).lookup k' = m.lookup k' := by
  unfold objInsert
  by_cases hany : m.any (fun kv => kv.1 = k)
  · rw [if_pos hany]
    exact lookup_map_replace_of_ne m k v k' h
  · rw [if_neg hany]
    exact lookup_append_single_of_ne m k v k' h

theorem lookup_map_replace_self (m : List (String × SlotVal)) (k : String) (v : SlotVal)
    (hany : m.any (fun kv => kv.1 = k) = true) :
    (m.map (fun kv => if kv.1 = k then (k, v) else kv)).lookup k = some v := by
  induction m with
  | nil => simp at hany
  | cons hd tl ih =>
    by_cases hk : hd.1 = k
    · rw [List.map_cons, if_pos hk]
      simp [List.lookup]
    · have htl : tl.any (fun kv => kv.1 = k) = true := by
        rcases List.any_eq_true.1 hany with ⟨kv, hkv, hkvk⟩
        rcases List.mem_cons.1 hkv with rfl | hkv'
        · exact absurd (by simpa using hkvk) hk
        · exact List.any_eq_true.2 ⟨kv, hkv', hkvk⟩
      have hb : (k == hd.1) = false := by
        simp only [beq_eq_false_iff_ne, ne_eq]
        exact fun he => hk he.symm
      rw [List.map_cons, if_neg hk]
      simp only [List.lookup, hb]
      exact ih htl

theorem lookup_append_single_self (m : List (String × SlotVal)) (k : String) (v : SlotVal)
    (h : ∀ p ∈ m, p.1 ≠ k) : (m ++ [(k, v)]).lookup k = some v := by
  induction m with
  | nil => simp [List.lookup]
  | cons hd tl ih =>
    have hb : (k == hd.1) = false := by
      simp only [beq_eq_false_iff_ne, ne_eq]
      exact fun he => h hd (by simp) he.symm
    rw [List.cons_append]
    simp only [List.lookup, hb]
    exact ih (fun p hp => h p (by simp [hp]))

/-- Looking up the inserted key yields the inserted value. -/
theorem lookup_objInsert_self (m : List (String × SlotVal)) (k : String) (v : SlotVal) :
    (objInsert m k v).lookup k = some v := by
  unfold objInsert
  by_cases hany : m.any (fun kv => kv.1 = k)
  · rw [if_pos hany]
    exact lookup_map_replace_self m k v hany
  · rw [if_neg hany]
    refine lookup_append_single_self m k v (fun p hp he => ?_)
    exact hany (List.any_eq_true.2 ⟨p, hp, by simp [he]⟩)

/-- Invariance of every member under a left fold, when each step preserves
it for the elements actually folded over. -/
theorem foldl_preserve_mem {α β : Type} {P : β → Prop} (step : List β → α → List β) :
    ∀ (l : List α) (m0 : List β), (∀ kv ∈ m0, P kv) →
      (∀ e ∈ l, ∀ m, (∀ kv ∈ m, P kv) → ∀ kv ∈ step m e, P kv) →
      ∀ kv ∈ l.foldl step m0, P kv := by
  intro l
  induction l with
  | nil =>
    intro m0 h0 _ kv hkv
    exact h0 kv hkv
  | cons e es ih =>
    intro m0 h0 hstep kv hkv
    exact ih (step m0 e) (hstep e (by simp) m0 h0)
      (fun e' he' => hstep e' (by simp [he'])) kv hkv

/-- A fold whose every step leaves the value at `key` unchanged leaves the
final lookup unchanged. -/
theorem lookup_foldl_untouched {α : Type} (key : String)
    (step : List (String × SlotVal) → α → List (String × SlotVal)) :
    ∀ (l : List α) (m : List (String × SlotVal)),
      (∀ e ∈ l, ∀ m', (step m' e).lookup key = m'.lookup key) →
      (l.foldl step m).lookup key = m.lookup key := by
  intro l
  induction l with
  | nil =>
    intro m _
    rfl
  | cons e es ih =>
    intro m hstep
    rw [List.foldl_cons, ih (step m e) (fun e' he' => hstep e' (by simp [he'])),
      hstep e (by simp)]

/-! ## Sum lemmas and the bench-by-type invariant -/

theorem foldl_qAdd_singleProj_eq_sum :
    ∀ (l : List (String × SlotVal)) (a : ℚ),
      l.foldl (fun s kv => qAdd s (singleProj kv.2)) a =
        a + (l.map (fun kv => singleProj kv.2)).sum := by
  intro l
  induction l with
  | nil =>
    intro a
    simp
  | cons x xs ih =>
    intro a
    rw [List.foldl_cons, ih, qAdd_eq_add, List.map_cons, List.sum_cons]
    ring

theorem foldl_add_slotAllProj_eq_sum :
    ∀ (l : List (String × SlotVal)) (a : ℚ),
      l.foldl (fun s kv => s + slotAllProj kv.2) a =
        a + (l.map (fun kv => slotAllProj kv.2)).sum := by
  intro l
  induction l with
  | nil =>
    intro a
    simp
  | cons x xs ih =>
    intro a
    rw [List.foldl_cons, ih, List.map_cons, List.sum_cons]
    ring

/-- The invariant the adapters establish for a built `players` object:
whatever sits under `BENCH` is an array, everything else is a single
player. -/
def benchTyped (kv : String × SlotVal) : Prop :=
  if kv.1 = "BENCH" then ∃ l, kv.2 = .arr l else ∃ p, kv.2 = .single p

/-- Sums over the two filters agree under the invariant. -/
theorem typed_sums_eq (m : List (String × SlotVal)) (h : ∀ kv ∈ m, benchTyped kv) :
    ((m.filter (fun kv => match kv.2 with | .single _ => true | .arr _ => false)).map
      (fun kv => singleProj kv.2)).sum =
    ((m.filter (fun kv => kv.1 ≠ "BENCH")).map (fun kv => slotAllProj kv.2)).sum := by
  induction m with
  | nil => rfl
  | cons kv m ih =>
    have hh := h kv (by simp)
    have ih2 := ih (fun kv2 h2 => h kv2 (by simp [h2]))
    unfold benchTyped at hh
    by_cases hb : kv.1 = "BENCH"
    · rw [if_pos hb] at hh
      obtain ⟨l, hl⟩ := hh
      rw [List.filter_cons, List.filter_cons, if_neg (by simp [hl]), if_neg (by simp [hb])]
      exact ih2
    · rw [if_neg hb] at hh
      obtain ⟨p, hp⟩ := hh
      rw [List.filter_cons, List.filter_cons, if_pos (by simp [hp]), if_pos (by simp [hb]),
        List.map_cons, List.map_cons, List.sum_cons, List.sum_cons, ih2]
      simp [singleProj, slotAllProj, hp]

/-- Under the `benchTyped` invariant, the by-type aggregate (the code's
`!Array.isArray` filter) coincides with the by-slot-name aggregate (the
specification's "sum over starting slots, bench excluded"). -/
theorem totalProjected_eq_slotNameProjSum (m : List (String × SlotVal))
    (h : ∀ kv ∈ m, benchTyped kv) : totalProjected m = slotNameProjSum m := by
  unfold totalProjected slotNameProjSum
  rw [foldl_qAdd_singleProj_eq_sum, foldl_add_slotAllProj_eq_sum, zero_add, zero_add]
  exact typed_sums_eq m h

/-! ## Per-adapter invariants of the built `players` object -/

theorem espn_starters_prop (roster : List ESPNRosterEntry) :
    ∀ kv ∈ roster.foldl espnStarterFold [],
      kv.1 ≠ "BENCH" ∧ ∃ p, kv.2 = .single p := by
  refine foldl_preserve_mem
    (P := fun kv => kv.1 ≠ "BENCH" ∧ ∃ p, kv.2 = SlotVal.single p)
    espnStarterFold roster [] (by simp) ?_
  intro e _ m hm kv hkv
  unfold espnStarterFold at hkv
  cases hmap : mapESPNLineupPosition e.lineupSlotId with
  | none =>
    simp only [hmap] at hkv
    exact hm kv hkv
  | some lp =>
    simp only [hmap] at hkv
    by_cases hlp : lp ≠ "BENCH"
    · rw [if_pos hlp] at hkv
      rcases mem_objInsert hkv with rfl | ⟨hmem, _⟩
      · exact ⟨hlp, _, rfl⟩
      · exact hm kv hmem
    · rw [if_neg hlp] at hkv
      exact hm kv hkv

theorem espnBuildPlayers_benchTyped (roster : List ESPNRosterEntry) :
    ∀ kv ∈ espnBuildPlayers roster, benchTyped kv := by
  intro kv hkv
  simp only [espnBuildPlayers] at hkv
  split at hkv
  · rcases mem_objInsert hkv with rfl | ⟨hmem, hne⟩
    · unfold benchTyped
      rw [if_pos rfl]
      exact ⟨_, rfl⟩
    · obtain ⟨hne2, p, hp⟩ := espn_starters_prop roster kv hmem
      unfold benchTyped
      rw [if_neg hne2]
      exact ⟨p, hp⟩
  · obtain ⟨hne2, p, hp⟩ := espn_starters_prop roster kv hkv
    unfold benchTyped
    rw [if_neg hne2]
    exact ⟨p, hp⟩

/-- Only the raw token `'BN'` is mapped to the `BENCH` slot by the Yahoo
table. -/
theorem yahooSlot_eq_bench {s : String} (h : mapYahooLineupPosition s = some "BENCH") :
    s = "BN" := by
  have hm := mem_of_lookup_eq_some h
  simp only [yahooLineupSlotTable, List.mem_cons, List.not_mem_nil, or_false,
    Prod.mk.injEq] at hm
  rcases hm with ⟨h1, h2⟩ | ⟨h1, h2⟩ | ⟨h1, h2⟩ | ⟨h1, h2⟩ | ⟨h1, h2⟩ | ⟨h1, h2⟩ | ⟨h1, h2⟩ | ⟨h1, h2⟩ <;>
    first
    | exact h1
    | exact absurd h2 (by decide)

/-- Only the raw token `'RB'` is mapped to the `RB1` slot by the Yahoo
table. -/
theorem yahooSlot_eq_rb1 {s : String} (h : mapYahooLineupPosition s = some "RB1") :
    s = "RB" := by
  have hm := mem_of_lookup_eq_some h
  simp only [yahooLineupSlotTable, List.mem_cons, List.not_mem_nil, or_false,
    Prod.mk.injEq] at hm
  rcases hm with ⟨h1, h2⟩ | ⟨h1, h2⟩ | ⟨h1, h2⟩ | ⟨h1, h2⟩ | ⟨h1, h2⟩ | ⟨h1, h2⟩ | ⟨h1, h2⟩ | ⟨h1, h2⟩ <;>
    first
    | exact h1
    | exact absurd h2 (by decide)

theorem yahoo_starters_prop (roster : List YahooRawPlayer) :
    ∀ kv ∈ roster.foldl yahooStarterFold [],
      (∃ p, kv.2 = .single p) ∧
        (kv.1 = "BENCH" → ∃ e ∈ roster, e.selected_position = "BN") := by
  refine foldl_preserve_mem
    (P := fun kv => (∃ p, kv.2 = SlotVal.single p) ∧
      (kv.1 = "BENCH" → ∃ e ∈ roster, e.selected_position = "BN"))
    yahooStarterFold roster [] (by simp) ?_
  intro e he m hm kv hkv
  unfold yahooStarterFold at hkv
  cases hmap : mapYahooLineupPosition e.selected_position with
  | none =>
    simp only [hmap] at hkv
    exact hm kv hkv
  | some lp =>
    simp only [hmap] at hkv
    by_cases hlp : lp ≠ "BN"
    · rw [if_pos hlp] at hkv
      rcases mem_objInsert hkv with rfl | ⟨hmem, _⟩
      · refine ⟨⟨_, rfl⟩, fun hb => ⟨e, he, ?_⟩⟩
        exact yahooSlot_eq_bench (hb ▸ hmap)
      · exact hm kv hmem
    · rw [if_neg hlp] at hkv
      exact hm kv hkv

theorem yahooBuildPlayers_benchTyped (roster : List YahooRawPlayer) :
    ∀ kv ∈ yahooBuildPlayers roster, benchTyped kv := by
  intro kv hkv
  simp only [yahooBuildPlayers] at hkv
  split at hkv
  · rcases mem_objInsert hkv with rfl | ⟨hmem, hne⟩
    · unfold benchTyped
      rw [if_pos rfl]
      exact ⟨_, rfl⟩
    · obtain ⟨⟨p, hp⟩, _⟩ := yahoo_starters_prop roster kv hmem
      unfold benchTyped
      rw [if_neg hne]
      exact ⟨p, hp⟩
  · next hbench =>
    obtain ⟨⟨p, hp⟩, hbn⟩ := yahoo_starters_prop roster kv hkv
    unfold benchTyped
    by_cases hb : kv.1 = "BENCH"
    · obtain ⟨e, he, hsel⟩ := hbn hb
      exfalso
      have hnil := not_not.1 hbench
      have hfil : roster.filter (fun pd => pd.selected_position = "BN") = [] :=
        List.map_eq_nil_iff.1 hnil
      have : e ∈ roster.filter (fun pd => pd.selected_position = "BN") :=
        List.mem_filter.2 ⟨he, by simp [hsel]⟩
      rw [hfil] at this
      exact absurd this (List.not_mem_nil e)
    · rw [if_neg hb]
      exact ⟨p, hp⟩

theorem mem_enum_sleeper {e : Nat × String} (he : e ∈ sleeperLineupPositions.enum) :
    e.2 ≠ "BENCH" := by
  have henum : sleeperLineupPositions.enum =
      [(0, "QB"), (1, "RB1"), (2, "RB2"), (3, "WR1"), (4, "WR2"), (5, "TE"),
       (6, "FLEX"), (7, "K"), (8, "DEF")] := by rfl
  rw [henum] at he
  simp only [List.mem_cons, List.not_mem_nil, or_false] at he
  rcases he with rfl | rfl | rfl | rfl | rfl | rfl | rfl | rfl | rfl <;> decide

theorem sleeper_starters_prop (matchup : SleeperMatchup)
    (allPlayers : List (String × SleeperRawPlayer)) :
    ∀ kv ∈ sleeperLineupPositions.enum.foldl
        (fun m ip => sleeperStarterFold matchup allPlayers m (ip.1, ip.2)) [],
      kv.1 ≠ "BENCH" ∧ ∃ p, kv.2 = .single p ∧ p.projectedPoints = some 0 := by
  refine foldl_preserve_mem
    (P := fun kv : String × SlotVal =>
      kv.1 ≠ "BENCH" ∧ ∃ p, kv.2 = SlotVal.single p ∧ p.projectedPoints = some 0)
    (fun m ip => sleeperStarterFold matchup allPlayers m (ip.1, ip.2))
    sleeperLineupPositions.enum [] (by simp) ?_
  intro e he m hm kv hkv
  unfold sleeperStarterFold at hkv
  cases hget : matchup.starters.get? e.1 with
  | none =>
    simp only [hget] at hkv
    exact hm kv hkv
  | some pid =>
    simp only [hget] at hkv
    by_cases hpid : pid ≠ "" ∧ pid ≠ "0"
    · rw [if_pos hpid] at hkv
      cases hlook : allPlayers.lookup pid with
      | none =>
        simp only [hlook] at hkv
        exact hm kv hkv
      | some pl =>
        simp only [hlook] at hkv
        rcases mem_objInsert hkv with rfl | ⟨hmem, _⟩
        · exact ⟨mem_enum_sleeper he, _, rfl, rfl⟩
        · exact hm kv hmem
    · rw [if_neg hpid] at hkv
      exact hm kv hkv

theorem sleeperBuildPlayers_benchTyped (matchup : SleeperMatchup)
    (allPlayers : List (String × SleeperRawPlayer)) :
    ∀ kv ∈ sleeperBuildPlayers matchup allPlayers, benchTyped kv := by
  intro kv hkv
  simp only [sleeperBuildPlayers] at hkv
  split at hkv
  · rcases mem_objInsert hkv with rfl | ⟨hmem, hne⟩
    · unfold benchTyped
      rw [if_pos rfl]
      exact ⟨_, rfl⟩
    · obtain ⟨hne2, p, hp, _⟩ := sleeper_starters_prop matchup allPlayers kv hmem
      unfold benchTyped
      rw [if_neg hne2]
      exact ⟨p, hp⟩
  · obtain ⟨hne2, p, hp, _⟩ := sleeper_starters_prop matchup allPlayers kv hkv
    unfold benchTyped
    rw [if_neg hne2]
    exact ⟨p, hp⟩

theorem sleeperBuildPlayers_zeroProj (matchup : SleeperMatchup)
    (allPlayers : List (String × SleeperRawPlayer)) :
    ∀ kv ∈ sleeperBuildPlayers matchup allPlayers, singleProj kv.2 = 0 := by
  intro kv hkv
  simp only [sleeperBuildPlayers] at hkv
  split at hkv
  · rcases mem_objInsert hkv with rfl | ⟨hmem, _⟩
    · rfl
    · obtain ⟨_, p, hp, hproj⟩ := sleeper_starters_prop matchup allPlayers kv hmem
      simp [singleProj, projOrZero, hp, hproj]
  · obtain ⟨_, p, hp, hproj⟩ := sleeper_starters_prop matchup allPlayers kv hkv
    simp [singleProj, projOrZero, hp, hproj]

theorem totalProjected_eq_zero (m : List (String × SlotVal))
    (h : ∀ kv ∈ m, singleProj kv.2 = 0) : totalProjected m = 0 := by
  unfold totalProjected
  rw [foldl_qAdd_singleProj_eq_sum, zero_add]
  apply List.sum_eq_zero
  intro x hx
  rcases List.mem_map.1 hx with ⟨kv, hkv, rfl⟩
  exact h kv (List.mem_of_mem_filter hkv)

/-! ## Claim theorems -/

/-- C1: For every adapter (ESPN, Yahoo, Sleeper), the Lineup returned by
getTeamLineup has totalProjectedPoints equal to the sum of projectedPoints
(missing value as 0) over exactly the players in starting slots: the
code's by-type aggregate (`!Array.isArray` filter) equals the by-slot-name
aggregate in which every non-BENCH slot contributes all its contents —
so the BENCH array, and nothing else, is excluded, by type rather than by
slot-name filtering. -/
theorem C1_total_is_starting_slot_sum :
    (∀ (teams : List ESPNTeamData) (leagueId teamId : String) (week : Nat) (season : Int)
        (l : Lineup), espnGetTeamLineup teams leagueId teamId week season = .ok l →
        l.totalProjectedPoints = slotNameProjSum l.players) ∧
    (∀ (roster : List YahooRawPlayer) (teamId : String) (week : Nat) (season : Int),
        (yahooGetTeamLineup roster teamId week season).totalProjectedPoints =
          slotNameProjSum (yahooGetTeamLineup roster teamId week season).players) ∧
    (∀ (rosters : List SleeperRoster) (matchups : List SleeperMatchup)
        (allPlayers : List (String × SleeperRawPlayer)) (leagueSeason : Int)
        (leagueId teamId : String) (week : Nat) (l : Lineup),
        sleeperGetTeamLineup rosters matchups allPlayers leagueSeason leagueId teamId week =
          .ok l →
        l.totalProjectedPoints = slotNameProjSum l.players) := by
  refine ⟨?_, ?_, ?_⟩
  · intro teams leagueId teamId week season l h
    unfold espnGetTeamLineup at h
    cases hfind : teams.find? (fun t => t.id = teamId) with
    | none =>
      simp only [hfind] at h
      exact Except.noConfusion h
    | some team =>
      simp only [hfind, Except.ok.injEq] at h
      rw [← h]
      exact totalProjected_eq_slotNameProjSum _ (espnBuildPlayers_benchTyped team.roster)
  · intro roster teamId week season
    exact totalProjected_eq_slotNameProjSum _ (yahooBuildPlayers_benchTyped roster)
  · intro rosters matchups allPlayers leagueSeason leagueId teamId week l h
    unfold sleeperGetTeamLineup at h
    cases hfind : rosters.find? (fun r => r.roster_id = teamId) with
    | none =>
      simp only [hfind] at h
      exact Except.noConfusion h
    | some r =>
      simp only [hfind, Except.ok.injEq] at h
      rw [← h]
      cases hmatch : matchups.find? (fun m => m.roster_id = teamId) with
      | none =>
        simp only [hmatch]
        exact totalProjected_eq_slotNameProjSum [] (by simp)
      | some matchup =>
        simp only [hmatch]
        exact totalProjected_eq_slotNameProjSum _
          (sleeperBuildPlayers_benchTyped matchup allPlayers)

def emptyLineup : Lineup := ⟨"", "", 0, 0, [], 0⟩

def c1espnTeams : List ESPNTeamData :=
  [{ id := "1"
     roster :=
       [{ lineupSlotId := 0
          player := { id := "p1", fullName := "Alpha One", defaultPositionId := 1,
                      proTeamId := 2, injuryStatus := "ACTIVE",
                      stats := some [⟨1, 1, some (mkRat 101 10)⟩, ⟨0, 1, some (mkRat 99 10)⟩] } },
        { lineupSlotId := 20
          player := { id := "p2", fullName := "Beta Two", defaultPositionId := 2,
                      proTeamId := 25, injuryStatus := "QUESTIONABLE", stats := none } }] }]

def c1eL : Lineup :=
  match espnGetTeamLineup c1espnTeams "9" "1" 1 2025 with
  | .ok l => l
  | .error _ => emptyLineup

def c1yRoster : List YahooRawPlayer :=
  [⟨"y1", "Gamma Three", "QB", "QB", "KC", "", some (mkRat 205 10), some (mkRat 19 1)⟩,
   ⟨"y2", "Delta Four", "RB", "BN", "SF", "Q", some (mkRat 12 1), none⟩]

def c1sRosters : List SleeperRoster := [⟨"1"⟩]

def c1sMatchups : List SleeperMatchup :=
  [{ roster_id := "1"
     starters := ["s1", "0", "0", "0", "0", "0", "0", "0", "0", "s2"]
     starters_points := [mkRat 15 1] }]

def c1sPlayers : List (String × SleeperRawPlayer) :=
  [("s1", ⟨"Epsilon Five", "QB", "BUF", ""⟩), ("s2", ⟨"Zeta Six", "RB", "DAL", "Out"⟩)]

def c1sL : Lineup :=
  match sleeperGetTeamLineup c1sRosters c1sMatchups c1sPlayers 2025 "L" "1" 3 with
  | .ok l => l
  | .error _ => emptyLineup

/-- Witness for C1 at concrete rosters for all three adapters. -/
theorem C1_witness :
    espnGetTeamLineup c1espnTeams "9" "1" 1 2025 = .ok c1eL ∧
    c1eL.totalProjectedPoints = slotNameProjSum c1eL.players ∧
    (yahooGetTeamLineup c1yRoster "1" 1 2025).totalProjectedPoints =
      slotNameProjSum (yahooGetTeamLineup c1yRoster "1" 1 2025).players ∧
    sleeperGetTeamLineup c1sRosters c1sMatchups c1sPlayers 2025 "L" "1" 3 = .ok c1sL ∧
    c1sL.totalProjectedPoints = slotNameProjSum c1sL.players := by
  have h1 : espnGetTeamLineup c1espnTeams "9" "1" 1 2025 = .ok c1eL := rfl
  have h2 : sleeperGetTeamLineup c1sRosters c1sMatchups c1sPlayers 2025 "L" "1" 3 = .ok c1sL :=
    rfl
  exact ⟨h1, C1_total_is_starting_slot_sum.1 c1espnTeams "9" "1" 1 2025 c1eL h1,
    C1_total_is_starting_slot_sum.2.1 c1yRoster "1" 1 2025,
    h2, C1_total_is_starting_slot_sum.2.2 c1sRosters c1sMatchups c1sPlayers 2025 "L" "1" 3 c1sL h2⟩

/-- C2 counterexample: each of the three position tables can emit a value
outside the canonical set QB/RB/WR/TE/K/DEF/FLEX — ESPN maps an unknown id
to the sentinel "UNKNOWN", and Yahoo and Sleeper propagate an unmapped
upstream value (here a fullback "FB" and a lineman "DL") unmodified. -/
theorem C2_counterexample :
    (mapESPNPosition 7 = "UNKNOWN" ∧ canonicalPositions.contains "UNKNOWN" = false) ∧
    (mapYahooPosition "FB" = "FB" ∧ canonicalPositions.contains "FB" = false) ∧
    (mapSleeperPosition "DL" = "DL" ∧ canonicalPositions.contains "DL" = false) := by
  decide

/-- C2 (amended): for inputs present in each table the mapped position is
canonical; an ESPN position id absent from the table maps to the sentinel
"UNKNOWN" (not propagated, but outside the canonical set), while Yahoo and
Sleeper values absent from their tables are propagated unmodified. -/
theorem C2_amended_position_mapping :
    (∀ n : Nat, (espnPositionTable.lookup n).isSome → mapESPNPosition n ∈ canonicalPositions) ∧
    (∀ n : Nat, espnPositionTable.lookup n = none → mapESPNPosition n = "UNKNOWN") ∧
    (∀ s : String,
      (yahooPositionTable.lookup s).isSome → mapYahooPosition s ∈ canonicalPositions) ∧
    (∀ s : String, yahooPositionTable.lookup s = none → mapYahooPosition s = s) ∧
    (∀ s : String,
      (sleeperPositionTable.lookup s).isSome → mapSleeperPosition s ∈ canonicalPositions) ∧
    (∀ s : String, sleeperPositionTable.lookup s = none → mapSleeperPosition s = s) := by
  refine ⟨?_, ?_, ?_, ?_, ?_, ?_⟩
  · intro n hs
    unfold mapESPNPosition
    cases hl : espnPositionTable.lookup n with
    | none =>
      rw [hl] at hs
      simp at hs
    | some v =>
      simp only [Option.getD_some]
      have hm := natLookup_mem hl
      simp only [espnPositionTable, List.mem_cons, List.not_mem_nil, or_false,
        Prod.mk.injEq] at hm
      rcases hm with ⟨_, rfl⟩ | ⟨_, rfl⟩ | ⟨_, rfl⟩ | ⟨_, rfl⟩ | ⟨_, rfl⟩ | ⟨_, rfl⟩ <;> decide
  · intro n hl
    unfold mapESPNPosition
    rw [hl]
    rfl
  · intro s hs
    unfold mapYahooPosition
    cases hl : yahooPositionTable.lookup s with
    | none =>
      rw [hl] at hs
      simp at hs
    | some v =>
      simp only [Option.getD_some]
      have hm := mem_of_lookup_eq_some hl
      simp only [yahooPositionTable, List.mem_cons, List.not_mem_nil, or_false,
        Prod.mk.injEq] at hm
      rcases hm with ⟨_, rfl⟩ | ⟨_, rfl⟩ | ⟨_, rfl⟩ | ⟨_, rfl⟩ | ⟨_, rfl⟩ | ⟨_, rfl⟩ <;> decide
  · intro s hl
    unfold mapYahooPosition
    rw [hl]
    rfl
  · intro s hs
    unfold mapSleeperPosition
    cases hl : sleeperPositionTable.lookup s with
    | none =>
      rw [hl] at hs
      simp at hs
    | some v =>
      simp only [Option.getD_some]
      have hm := mem_of_lookup_eq_some hl
      simp only [sleeperPositionTable, List.mem_cons, List.not_mem_nil, or_false,
        Prod.mk.injEq] at hm
      rcases hm with ⟨_, rfl⟩ | ⟨_, rfl⟩ | ⟨_, rfl⟩ | ⟨_, rfl⟩ | ⟨_, rfl⟩ | ⟨_, rfl⟩ <;> decide
  · intro s hl
    unfold mapSleeperPosition
    rw [hl]
    rfl

/-- Witness for the amended C2 at concrete table hits and misses. -/
theorem C2_amended_witness :
    (espnPositionTable.lookup 1).isSome = true ∧ mapESPNPosition 1 ∈ canonicalPositions ∧
    espnPositionTable.lookup 7 = none ∧ mapESPNPosition 7 = "UNKNOWN" ∧
    (yahooPositionTable.lookup "RB").isSome = true ∧
    mapYahooPosition "RB" ∈ canonicalPositions ∧
    yahooPositionTable.lookup "FB" = none ∧ mapYahooPosition "FB" = "FB" ∧
    (sleeperPositionTable.lookup "K").isSome = true ∧
    mapSleeperPosition "K" ∈ canonicalPositions ∧
    sleeperPositionTable.lookup "DL" = none ∧ mapSleeperPosition "DL" = "DL" :=
  ⟨by decide, C2_amended_position_mapping.1 1 (by decide),
   by decide, C2_amended_position_mapping.2.1 7 (by decide),
   by decide, C2_amended_position_mapping.2.2.1 "RB" (by decide),
   by decide, C2_amended_position_mapping.2.2.2.1 "FB" (by decide),
   by decide, C2_amended_position_mapping.2.2.2.2.1 "K" (by decide),
   by decide, C2_amended_position_mapping.2.2.2.2.2 "DL" (by decide)⟩

/-- C6: each adapter's injury-status mapping is total — for every input
string the output is one of healthy/questionable/doubtful/out, and every
input outside the table's explicit keys maps to healthy. -/
theorem C6_injury_mapping_total :
    (∀ s : String, mapESPNInjuryStatus s ∈ canonicalStatuses ∧
      (espnInjuryTable.lookup s = none → mapESPNInjuryStatus s = "healthy")) ∧
    (∀ s : String, mapYahooInjuryStatus s ∈ canonicalStatuses ∧
      (yahooInjuryTable.lookup s = none → mapYahooInjuryStatus s = "healthy")) ∧
    (∀ s : String, mapSleeperInjuryStatus s ∈ canonicalStatuses ∧
      (sleeperInjuryTable.lookup s = none → mapSleeperInjuryStatus s = "healthy")) := by
  refine ⟨fun s => ⟨?_, fun hl => ?_⟩, fun s => ⟨?_, fun hl => ?_⟩, fun s => ⟨?_, fun hl => ?_⟩⟩
  · unfold mapESPNInjuryStatus
    cases hl : espnInjuryTable.lookup s with
    | none => decide
    | some v =>
      simp only [Option.getD_some]
      have hm := mem_of_lookup_eq_some hl
      simp only [espnInjuryTable, List.mem_cons, List.not_mem_nil, or_false,
        Prod.mk.injEq] at hm
      rcases hm with ⟨_, rfl⟩ | ⟨_, rfl⟩ | ⟨_, rfl⟩ | ⟨_, rfl⟩ <;> decide
  · unfold mapESPNInjuryStatus
    rw [hl]
    rfl
  · unfold mapYahooInjuryStatus
    cases hl : yahooInjuryTable.lookup s with
    | none => decide
    | some v =>
      simp only [Option.getD_some]
      have hm := mem_of_lookup_eq_some hl
      simp only [yahooInjuryTable, List.mem_cons, List.not_mem_nil, or_false,
        Prod.mk.injEq] at hm
      rcases hm with ⟨_, rfl⟩ | ⟨_, rfl⟩ | ⟨_, rfl⟩ | ⟨_, rfl⟩ <;> decide
  · unfold mapYahooInjuryStatus
    rw [hl]
    rfl
  · unfold mapSleeperInjuryStatus
    cases hl : sleeperInjuryTable.lookup s with
    | none => decide
    | some v =>
      simp only [Option.getD_some]
      have hm := mem_of_lookup_eq_some hl
      simp only [sleeperInjuryTable, List.mem_cons, List.not_mem_nil, or_false,
        Prod.mk.injEq] at hm
      rcases hm with ⟨_, rfl⟩ | ⟨_, rfl⟩ | ⟨_, rfl⟩ | ⟨_, rfl⟩ <;> decide
  · unfold mapSleeperInjuryStatus
    rw [hl]
    rfl

/-- Witness for C6 at the empty string and an unrecognized value. -/
theorem C6_witness :
    mapESPNInjuryStatus "" ∈ canonicalStatuses ∧
    espnInjuryTable.lookup "weird" = none ∧ mapESPNInjuryStatus "weird" = "healthy" ∧
    mapYahooInjuryStatus "" ∈ canonicalStatuses ∧
    yahooInjuryTable.lookup "weird" = none ∧ mapYahooInjuryStatus "weird" = "healthy" ∧
    mapSleeperInjuryStatus "" ∈ canonicalStatuses ∧
    sleeperInjuryTable.lookup "weird" = none ∧ mapSleeperInjuryStatus "weird" = "healthy" :=
  ⟨(C6_injury_mapping_total.1 "").1,
   by decide, (C6_injury_mapping_total.1 "weird").2 (by decide),
   (C6_injury_mapping_total.2.1 "").1,
   by decide, (C6_injury_mapping_total.2.1 "weird").2 (by decide),
   (C6_injury_mapping_total.2.2 "").1,
   by decide, (C6_injury_mapping_total.2.2 "weird").2 (by decide)⟩

/-- C10: the Sleeper adapter sets projectedPoints to 0 for every player it
produces, so every Lineup it returns has totalProjectedPoints 0. -/
theorem C10_sleeper_total_zero :
    ∀ (rosters : List SleeperRoster) (matchups : List SleeperMatchup)
      (allPlayers : List (String × SleeperRawPlayer)) (leagueSeason : Int)
      (leagueId teamId : String) (week : Nat) (l : Lineup),
      sleeperGetTeamLineup rosters matchups allPlayers leagueSeason leagueId teamId week =
        .ok l →
      l.totalProjectedPoints = 0 := by
  intro rosters matchups allPlayers leagueSeason leagueId teamId week l h
  unfold sleeperGetTeamLineup at h
  cases hfind : rosters.find? (fun r => r.roster_id = teamId) with
  | none =>
    simp only [hfind] at h
    exact Except.noConfusion h
  | some r =>
    simp only [hfind, Except.ok.injEq] at h
    rw [← h]
    cases hmatch : matchups.find? (fun m => m.roster_id = teamId) with
    | none =>
      simp only [hmatch]
      rfl
    | some matchup =>
      simp only [hmatch]
      exact totalProjected_eq_zero _ (sleeperBuildPlayers_zeroProj matchup allPlayers)

def c10Rosters : List SleeperRoster := [⟨"4"⟩]

def c10Matchups : List SleeperMatchup :=
  [{ roster_id := "4"
     starters := ["a1", "a2", "0", "0", "0", "0", "0", "0", "a3"]
     starters_points := [mkRat 7 1, mkRat 9 2] }]

def c10Players : List (String × SleeperRawPlayer) :=
  [("a1", ⟨"Eta Seven", "QB", "NYJ", "Questionable"⟩),
   ("a2", ⟨"Theta Eight", "RB", "NE", ""⟩),
   ("a3", ⟨"Iota Nine", "DEF", "PHI", ""⟩)]

def c10L : Lineup :=
  match sleeperGetTeamLineup c10Rosters c10Matchups c10Players 2024 "LL" "4" 5 with
  | .ok l => l
  | .error _ => emptyLineup

/-- Witness for C10 at a concrete Sleeper matchup. -/
theorem C10_witness :
    sleeperGetTeamLineup c10Rosters c10Matchups c10Players 2024 "LL" "4" 5 = .ok c10L ∧
    c10L.totalProjectedPoints = 0 := by
  have h : sleeperGetTeamLineup c10Rosters c10Matchups c10Players 2024 "LL" "4" 5 = .ok c10L :=
    rfl
  exact ⟨h, C10_sleeper_total_zero c10Rosters c10Matchups c10Players 2024 "LL" "4" 5 c10L h⟩

/-- C8: for any session whose expiry is in the past, isAuthenticated()
returns false and clears both the in-memory session and the persisted
storage entry, performing exactly one clearSession call; a subsequent call
on the resulting state still returns false but performs no further
clearing (its clear count is 0 and the state is unchanged). -/
theorem C8_expiry_clears_exactly_once :
    ∀ (st : ESPNState) (s : ESPNAuthSession) (now now2 : Int),
      st.authSession = some s → s.expiresAt < now →
      isAuthenticatedRun now st = (false, ⟨none, none⟩, 1) ∧
      isAuthenticatedRun now2 (isAuthenticatedRun now st).2.1 = (false, ⟨none, none⟩, 0) := by
  intro st s now now2 hsess hexp
  have h1 : isAuthenticatedRun now st = (false, ⟨none, none⟩, 1) := by
    unfold isAuthenticatedRun
    simp only [hsess]
    rw [if_pos hexp]
    rfl
  refine ⟨h1, ?_⟩
  rw [h1]
  rfl

def c8Session : ESPNAuthSession := ⟨true, "espn_s2=abc", 1000, some "user"⟩

def c8State : ESPNState := ⟨some c8Session, some c8Session⟩

/-- Witness for C8 at a concrete expired session. -/
theorem C8_witness :
    c8State.authSession = some c8Session ∧ c8Session.expiresAt < 1001 ∧
    isAuthenticatedRun 1001 c8State = (false, ⟨none, none⟩, 1) ∧
    isAuthenticatedRun 1002 (isAuthenticatedRun 1001 c8State).2.1 = (false, ⟨none, none⟩, 0) :=
  ⟨rfl, by decide,
   (C8_expiry_clears_exactly_once c8State c8Session 1001 1002 rfl (by decide)).1,
   (C8_expiry_clears_exactly_once c8State c8Session 1001 1002 rfl (by decide)).2⟩

/-- C7: with an unauthenticated session (no session, or expiry in the
past), getTeamFromUrl fails with the not-authenticated error before any
network request is issued (the issued-request trace is empty). -/
theorem C7_unauthenticated_fails_before_network :
    ∀ (now : Int) (defaultSeason : String) (st : ESPNState) (teamUrl : String)
      (net : NetReq → Except String String),
      (st.authSession = none ∨ ∃ s, st.authSession = some s ∧ s.expiresAt < now) →
      (getTeamFromUrlRun now defaultSeason st teamUrl net).1 =
        .error "Not authenticated with ESPN. Please log in first." ∧
      (getTeamFromUrlRun now defaultSeason st teamUrl net).2.2 = [] := by
  intro now defaultSeason st teamUrl net h
  rcases h with hnone | ⟨s, hsome, hexp⟩
  · unfold getTeamFromUrlRun isAuthenticatedRun
    simp only [hnone]
    exact ⟨rfl, rfl⟩
  · unfold getTeamFromUrlRun isAuthenticatedRun
    simp only [hsome]
    rw [if_pos hexp]
    exact ⟨rfl, rfl⟩

def c7State : ESPNState := ⟨some ⟨true, "c", 500, none⟩, some ⟨true, "c", 500, none⟩⟩

/-- Witness for C7 at a concrete expired session and URL. -/
theorem C7_witness :
    (c7State.authSession = none ∨
      ∃ s, c7State.authSession = some s ∧ s.expiresAt < 600) ∧
    (getTeamFromUrlRun 600 "2025" c7State
        "https://fantasy.espn.com/football/team?leagueId=45107891&teamId=7"
        (fun _ => .ok "page")).1 =
      .error "Not authenticated with ESPN. Please log in first." ∧
    (getTeamFromUrlRun 600 "2025" c7State
        "https://fantasy.espn.com/football/team?leagueId=45107891&teamId=7"
        (fun _ => .ok "page")).2.2 = [] :=
  ⟨Or.inr ⟨⟨true, "c", 500, none⟩, rfl, by decide⟩,
   (C7_unauthenticated_fails_before_network 600 "2025" c7State
     "https://fantasy.espn.com/football/team?leagueId=45107891&teamId=7"
     (fun _ => .ok "page") (Or.inr ⟨⟨true, "c", 500, none⟩, rfl, by decide⟩)).1,
   (C7_unauthenticated_fails_before_network 600 "2025" c7State
     "https://fantasy.espn.com/football/team?leagueId=45107891&teamId=7"
     (fun _ => .ok "page") (Or.inr ⟨⟨true, "c", 500, none⟩, rfl, by decide⟩)).2⟩

def c4Team : FantasyTeam :=
  ⟨"espn-7", "Team Seven", "ESPN", "L1", "League One", "u1", ⟨0, 0, 0⟩, 2025, true⟩

def c4TeamY : FantasyTeam :=
  ⟨"yahoo-3", "Team Three", "Yahoo", "L2", "League Two", "u1", ⟨0, 0, 0⟩, 2025, true⟩

def c4TeamS : FantasyTeam :=
  ⟨"sleeper-5", "Team Five", "Sleeper", "L3", "League Three", "u1", ⟨0, 0, 0⟩, 2025, true⟩

def c4TeamX : FantasyTeam :=
  ⟨"cbs-9", "Team Nine", "CBS", "L4", "League Four", "u1", ⟨0, 0, 0⟩, 2025, true⟩

/-- C4 counterexample: the dispatcher's getTeamLineup and updateTeamLineup
have no try/catch — on every platform branch an adapter error is returned
to the caller as the raw error, and an unknown platform tag is itself an
error crossing the boundary, rather than being converted into a result;
so the claim that every dispatcher operation converts adapter errors
fails for these two operations (only connectPlatform converts). -/
theorem C4_counterexample :
    dispatchGetTeamLineup c4Team 1 (fun _ _ _ _ => .error "adapter boom")
      (fun _ _ _ _ => .error "adapter boom") (fun _ _ _ => .error "adapter boom") =
      .error "adapter boom" ∧
    dispatchGetTeamLineup c4TeamY 1 (fun _ _ _ _ => .error "adapter boom")
      (fun _ _ _ _ => .error "adapter boom") (fun _ _ _ => .error "adapter boom") =
      .error "adapter boom" ∧
    dispatchGetTeamLineup c4TeamS 1 (fun _ _ _ _ => .error "adapter boom")
      (fun _ _ _ _ => .error "adapter boom") (fun _ _ _ => .error "adapter boom") =
      .error "adapter boom" ∧
    dispatchGetTeamLineup c4TeamX 1 (fun _ _ _ _ => .error "adapter boom")
      (fun _ _ _ _ => .error "adapter boom") (fun _ _ _ => .error "adapter boom") =
      .error ("Unsupported platform: " ++ "CBS") ∧
    dispatchUpdateTeamLineup c4Team 1 [] (fun _ _ _ _ => .error "adapter boom")
      (fun _ _ _ _ => .error "adapter boom") (fun _ _ _ _ => .error "adapter boom") =
      .error "adapter boom" ∧
    dispatchUpdateTeamLineup c4TeamY 1 [] (fun _ _ _ _ => .error "adapter boom")
      (fun _ _ _ _ => .error "adapter boom") (fun _ _ _ _ => .error "adapter boom") =
      .error "adapter boom" ∧
    dispatchUpdateTeamLineup c4TeamS 1 [] (fun _ _ _ _ => .error "adapter boom")
      (fun _ _ _ _ => .error "adapter boom") (fun _ _ _ _ => .error "adapter boom") =
      .error "adapter boom" ∧
    dispatchUpdateTeamLineup c4TeamX 1 [] (fun _ _ _ _ => .error "adapter boom")
      (fun _ _ _ _ => .error "adapter boom") (fun _ _ _ _ => .error "adapter boom") =
      .error ("Unsupported platform: " ++ "CBS") :=
  ⟨rfl, rfl, rfl, rfl, rfl, rfl, rfl, rfl⟩

/-- C4 (amended): connectPlatform converts every error thrown inside it
(adapter failures, credential validation, unknown platforms) into a
ConnectionResult with success=false and the message in the error field;
getTeamLineup and updateTeamLineup perform no conversion — on each of the
three platform branches an adapter error crosses to the caller unchanged,
and any other platform tag produces the unsupported-platform error. -/
theorem C4_amended_error_conversion :
    (∀ (platform : String) (creds : Credentials)
        (eL : Except String ESPNLeagueMeta) (yL : Except String (List YahooLeagueMeta))
        (sL : Except String SleeperLeagueMeta) (e : String),
        connectPlatformInner platform creds eL yL sL = .error e →
        connectPlatform platform creds eL yL sL =
          { success := false, platform := platform, teams := [], error := some e }) ∧
    (∀ (creds : Credentials) (e : String) (yL : Except String (List YahooLeagueMeta))
        (sL : Except String SleeperLeagueMeta),
        jsTruthy creds.leagueId = true → jsTruthy creds.teamId = true →
        connectPlatform "espn" creds (.error e) yL sL =
          { success := false, platform := "espn", teams := [],
            error := some ("ESPN connection failed: Error: " ++ e) }) ∧
    (∀ (team : FantasyTeam) (week : Nat)
        (eC yC : String → String → Nat → Int → Except String Lineup)
        (sC : String → String → Nat → Except String Lineup) (e : String),
        (team.platform = "ESPN" →
          eC team.leagueId (jsRemoveFirst team.id "espn-") week team.season = .error e →
          dispatchGetTeamLineup team week eC yC sC = .error e) ∧
        (team.platform = "Yahoo" →
          yC team.leagueId (jsRemoveFirst team.id "yahoo-") week team.season = .error e →
          dispatchGetTeamLineup team week eC yC sC = .error e) ∧
        (team.platform = "Sleeper" →
          sC team.leagueId (jsRemoveFirst team.id "sleeper-") week = .error e →
          dispatchGetTeamLineup team week eC yC sC = .error e)) ∧
    (∀ (team : FantasyTeam) (week : Nat)
        (eC yC : String → String → Nat → Int → Except String Lineup)
        (sC : String → String → Nat → Except String Lineup),
        team.platform ≠ "ESPN" → team.platform ≠ "Yahoo" → team.platform ≠ "Sleeper" →
        dispatchGetTeamLineup team week eC yC sC =
          .error ("Unsupported platform: " ++ team.platform)) ∧
    (∀ (team : FantasyTeam) (week : Nat) (lineup : List (String × SlotVal))
        (eC yC sC : String → String → Nat → List (String × SlotVal) → Except String Bool)
        (e : String),
        (team.platform = "ESPN" →
          eC team.leagueId (jsRemoveFirst team.id "espn-") week lineup = .error e →
          dispatchUpdateTeamLineup team week lineup eC yC sC = .error e) ∧
        (team.platform = "Yahoo" →
          yC team.leagueId (jsRemoveFirst team.id "yahoo-") week lineup = .error e →
          dispatchUpdateTeamLineup team week lineup eC yC sC = .error e) ∧
        (team.platform = "Sleeper" →
          sC team.leagueId (jsRemoveFirst team.id "sleeper-") week lineup = .error e →
          dispatchUpdateTeamLineup team week lineup eC yC sC = .error e)) ∧
    (∀ (team : FantasyTeam) (week : Nat) (lineup : List (String × SlotVal))
        (eC yC sC : String → String → Nat → List (String × SlotVal) → Except String Bool),
        team.platform ≠ "ESPN" → team.platform ≠ "Yahoo" → team.platform ≠ "Sleeper" →
        dispatchUpdateTeamLineup team week lineup eC yC sC =
          .error ("Unsupported platform: " ++ team.platform)) := by
  refine ⟨?_, ?_, ?_, ?_, ?_, ?_⟩
  · intro platform creds eL yL sL e h
    unfold connectPlatform
    rw [h]
  · intro creds e yL sL h1 h2
    unfold connectPlatform connectPlatformInner connectESPN
    rw [show jsToLower "espn" = "espn" from rfl, if_pos rfl, if_neg (by simp [h1, h2])]
  · intro team week eC yC sC e
    refine ⟨fun hplat hcall => ?_, fun hplat hcall => ?_, fun hplat hcall => ?_⟩
    · unfold dispatchGetTeamLineup
      rw [hplat, if_pos rfl]
      exact hcall
    · unfold dispatchGetTeamLineup
      rw [hplat, if_neg (by decide), if_pos rfl]
      exact hcall
    · unfold dispatchGetTeamLineup
      rw [hplat, if_neg (by decide), if_neg (by decide), if_pos rfl]
      exact hcall
  · intro team week eC yC sC h1 h2 h3
    unfold dispatchGetTeamLineup
    rw [if_neg h1, if_neg h2, if_neg h3]
  · intro team week lineup eC yC sC e
    refine ⟨fun hplat hcall => ?_, fun hplat hcall => ?_, fun hplat hcall => ?_⟩
    · unfold dispatchUpdateTeamLineup
      rw [hplat, if_pos rfl]
      exact hcall
    · unfold dispatchUpdateTeamLineup
      rw [hplat, if_neg (by decide), if_pos rfl]
      exact hcall
    · unfold dispatchUpdateTeamLineup
      rw [hplat, if_neg (by decide), if_neg (by decide), if_pos rfl]
      exact hcall
  · intro team week lineup eC yC sC h1 h2 h3
    unfold dispatchUpdateTeamLineup
    rw [if_neg h1, if_neg h2, if_neg h3]

def c4Creds : Credentials := ⟨some "L1", some "7", none, none⟩

/-- Witness for the amended C4 at concrete inputs covering the ESPN,
Yahoo, Sleeper and unsupported branches of both dispatcher operations. -/
theorem C4_amended_witness :
    connectPlatformInner "yahoo" c4Creds (.error "x") (.error "boom") (.error "x") =
      .error "Yahoo requires access token" ∧
    connectPlatform "yahoo" c4Creds (.error "x") (.error "boom") (.error "x") =
      { success := false, platform := "yahoo", teams := [],
        error := some "Yahoo requires access token" } ∧
    jsTruthy c4Creds.leagueId = true ∧ jsTruthy c4Creds.teamId = true ∧
    connectPlatform "espn" c4Creds (.error "league down") (.error "x") (.error "x") =
      { success := false, platform := "espn", teams := [],
        error := some ("ESPN connection failed: Error: " ++ "league down") } ∧
    c4Team.platform = "ESPN" ∧
    dispatchGetTeamLineup c4Team 2 (fun _ _ _ _ => .error "down") (fun _ _ _ _ => .error "down")
      (fun _ _ _ => .error "down") = .error "down" ∧
    c4TeamY.platform = "Yahoo" ∧
    dispatchGetTeamLineup c4TeamY 2 (fun _ _ _ _ => .error "down") (fun _ _ _ _ => .error "down")
      (fun _ _ _ => .error "down") = .error "down" ∧
    c4TeamS.platform = "Sleeper" ∧
    dispatchGetTeamLineup c4TeamS 2 (fun _ _ _ _ => .error "down") (fun _ _ _ _ => .error "down")
      (fun _ _ _ => .error "down") = .error "down" ∧
    c4TeamX.platform ≠ "ESPN" ∧ c4TeamX.platform ≠ "Yahoo" ∧ c4TeamX.platform ≠ "Sleeper" ∧
    dispatchGetTeamLineup c4TeamX 2 (fun _ _ _ _ => .error "down") (fun _ _ _ _ => .error "down")
      (fun _ _ _ => .error "down") = .error ("Unsupported platform: " ++ "CBS") ∧
    dispatchUpdateTeamLineup c4Team 2 [] (fun _ _ _ _ => .error "down")
      (fun _ _ _ _ => .error "down") (fun _ _ _ _ => .error "down") = .error "down" ∧
    dispatchUpdateTeamLineup c4TeamY 2 [] (fun _ _ _ _ => .error "down")
      (fun _ _ _ _ => .error "down") (fun _ _ _ _ => .error "down") = .error "down" ∧
    dispatchUpdateTeamLineup c4TeamS 2 [] (fun _ _ _ _ => .error "down")
      (fun _ _ _ _ => .error "down") (fun _ _ _ _ => .error "down") = .error "down" ∧
    dispatchUpdateTeamLineup c4TeamX 2 [] (fun _ _ _ _ => .error "down")
      (fun _ _ _ _ => .error "down") (fun _ _ _ _ => .error "down") =
      .error ("Unsupported platform: " ++ "CBS") :=
  ⟨rfl,
   C4_amended_error_conversion.1 "yahoo" c4Creds (.error "x") (.error "boom") (.error "x")
     "Yahoo requires access token" rfl,
   rfl, rfl,
   C4_amended_error_conversion.2.1 c4Creds "league down" (.error "x") (.error "x") rfl rfl,
   rfl,
   (C4_amended_error_conversion.2.2.1 c4Team 2 (fun _ _ _ _ => .error "down")
     (fun _ _ _ _ => .error "down") (fun _ _ _ => .error "down") "down").1 rfl rfl,
   rfl,
   (C4_amended_error_conversion.2.2.1 c4TeamY 2 (fun _ _ _ _ => .error "down")
     (fun _ _ _ _ => .error "down") (fun _ _ _ => .error "down") "down").2.1 rfl rfl,
   rfl,
   (C4_amended_error_conversion.2.2.1 c4TeamS 2 (fun _ _ _ _ => .error "down")
     (fun _ _ _ _ => .error "down") (fun _ _ _ => .error "down") "down").2.2 rfl rfl,
   by decide, by decide, by decide,
   C4_amended_error_conversion.2.2.2.1 c4TeamX 2 (fun _ _ _ _ => .error "down")
     (fun _ _ _ _ => .error "down") (fun _ _ _ => .error "down")
     (by decide) (by decide) (by decide),
   (C4_amended_error_conversion.2.2.2.2.1 c4Team 2 [] (fun _ _ _ _ => .error "down")
     (fun _ _ _ _ => .error "down") (fun _ _ _ _ => .error "down") "down").1 rfl rfl,
   (C4_amended_error_conversion.2.2.2.2.1 c4TeamY 2 [] (fun _ _ _ _ => .error "down")
     (fun _ _ _ _ => .error "down") (fun _ _ _ _ => .error "down") "down").2.1 rfl rfl,
   (C4_amended_error_conversion.2.2.2.2.1 c4TeamS 2 [] (fun _ _ _ _ => .error "down")
     (fun _ _ _ _ => .error "down") (fun _ _ _ _ => .error "down") "down").2.2 rfl rfl,
   C4_amended_error_conversion.2.2.2.2.2 c4TeamX 2 [] (fun _ _ _ _ => .error "down")
     (fun _ _ _ _ => .error "down") (fun _ _ _ _ => .error "down")
     (by decide) (by decide) (by decide)⟩

/-- No input is mapped to `RB2` by the Yahoo lineup table. -/
theorem yahooSlot_ne_rb2 (p : String) : mapYahooLineupPosition p ≠ some "RB2" := by
  intro h
  have hm := mem_of_lookup_eq_some h
  simp only [yahooLineupSlotTable, List.mem_cons, List.not_mem_nil, or_false,
    Prod.mk.injEq] at hm
  rcases hm with ⟨_, h2⟩ | ⟨_, h2⟩ | ⟨_, h2⟩ | ⟨_, h2⟩ | ⟨_, h2⟩ | ⟨_, h2⟩ | ⟨_, h2⟩ | ⟨_, h2⟩ <;>
    exact absurd h2 (by decide)

/-- No input is mapped to `WR2` by the Yahoo lineup table. -/
theorem yahooSlot_ne_wr2 (p : String) : mapYahooLineupPosition p ≠ some "WR2" := by
  intro h
  have hm := mem_of_lookup_eq_some h
  simp only [yahooLineupSlotTable, List.mem_cons, List.not_mem_nil, or_false,
    Prod.mk.injEq] at hm
  rcases hm with ⟨_, h2⟩ | ⟨_, h2⟩ | ⟨_, h2⟩ | ⟨_, h2⟩ | ⟨_, h2⟩ | ⟨_, h2⟩ | ⟨_, h2⟩ | ⟨_, h2⟩ <;>
    exact absurd h2 (by decide)

/-- A Yahoo starter step either keeps an element or inserts the mapped
player of the processed entry under some slot. -/
theorem yahooStarterFold_mem (e : YahooRawPlayer) (m : List (String × SlotVal))
    (kv : String × SlotVal) (hkv : kv ∈ yahooStarterFold m e) :
    kv ∈ m ∨ ∃ lp, kv = (lp, .single (yahooMkPlayer e)) := by
  unfold yahooStarterFold at hkv
  cases hmap : mapYahooLineupPosition e.selected_position with
  | none =>
    simp only [hmap] at hkv
    exact Or.inl hkv
  | some lp =>
    simp only [hmap] at hkv
    by_cases hlp : lp ≠ "BN"
    · rw [if_pos hlp] at hkv
      rcases mem_objInsert hkv with rfl | ⟨hmem, _⟩
      · exact Or.inr ⟨lp, rfl⟩
      · exact Or.inl hmem
    · rw [if_neg hlp] at hkv
      exact Or.inl hkv

/-- An entry whose selected position is `RB` is folded as an insert at
slot `RB1`. -/
theorem yahooStarterFold_rb (e : YahooRawPlayer) (m : List (String × SlotVal))
    (h : e.selected_position = "RB") :
    yahooStarterFold m e = objInsert m "RB1" (.single (yahooMkPlayer e)) := by
  have hmap : mapYahooLineupPosition e.selected_position = some "RB1" := by
    rw [h]
    rfl
  unfold yahooStarterFold
  rw [hmap]
  rfl

/-- C9: in the Yahoo adapter, every starting RB is mapped to slot RB1 and
every starting WR to WR1 (the table never emits RB2/WR2); consequently,
when a roster holds two starting RBs, the later one overwrites the earlier
at RB1, the earlier starter's player appears in no slot of the returned
Lineup, and the total is the sum over the surviving slots only. -/
theorem C9_yahoo_rb1_overwrite :
    ∀ (pre mid post : List YahooRawPlayer) (r1 r2 : YahooRawPlayer)
      (teamId : String) (week : Nat) (season : Int),
      r1.selected_position = "RB" → r2.selected_position = "RB" →
      (∀ e ∈ post, e.selected_position ≠ "RB") →
      (∀ e ∈ pre ++ mid ++ post, yahooMkPlayer e ≠ yahooMkPlayer r1) →
      yahooMkPlayer r2 ≠ yahooMkPlayer r1 →
      (mapYahooLineupPosition "RB" = some "RB1" ∧
        mapYahooLineupPosition "WR" = some "WR1" ∧
        (∀ p, mapYahooLineupPosition p ≠ some "RB2") ∧
        (∀ p, mapYahooLineupPosition p ≠ some "WR2")) ∧
      (yahooGetTeamLineup (pre ++ r1 :: mid ++ r2 :: post) teamId week season).players.lookup
          "RB1" = some (.single (yahooMkPlayer r2)) ∧
      (∀ kv ∈ (yahooGetTeamLineup (pre ++ r1 :: mid ++ r2 :: post) teamId week season).players,
        kv.2 ≠ .single (yahooMkPlayer r1)) ∧
      (yahooGetTeamLineup (pre ++ r1 :: mid ++ r2 :: post) teamId week season).totalProjectedPoints
        = slotNameProjSum
            (yahooGetTeamLineup (pre ++ r1 :: mid ++ r2 :: post) teamId week season).players := by
  intro pre mid post r1 r2 teamId week season h1 h2 hpost hothers hner
  set roster := pre ++ r1 :: mid ++ r2 :: post with hroster
  have hpre_sub : ∀ e ∈ pre, e ∈ pre ++ mid ++ post := by
    intro e he
    simp [he]
  have hmid_sub : ∀ e ∈ mid, e ∈ pre ++ mid ++ post := by
    intro e he
    simp [he]
  have hpost_sub : ∀ e ∈ post, e ∈ pre ++ mid ++ post := by
    intro e he
    simp [he]
  -- decompose the starter fold
  have hsplit : roster.foldl yahooStarterFold [] =
      post.foldl yahooStarterFold
        (yahooStarterFold
          (mid.foldl yahooStarterFold
            (yahooStarterFold (pre.foldl yahooStarterFold []) r1)) r2) := by
    rw [hroster]
    simp [List.foldl_append]
  set m0 := pre.foldl yahooStarterFold [] with hm0
  set m1 := yahooStarterFold m0 r1 with hm1
  set m2 := mid.foldl yahooStarterFold m1 with hm2
  set m3 := yahooStarterFold m2 r2 with hm3
  set m4 := post.foldl yahooStarterFold m3 with hm4
  have hm3eq : m3 = objInsert m2 "RB1" (.single (yahooMkPlayer r2)) := by
    rw [hm3, yahooStarterFold_rb r2 m2 h2]
  -- the RB1 slot after r2 is r2's player, and post never touches RB1
  have hlook3 : m3.lookup "RB1" = some (.single (yahooMkPlayer r2)) := by
    rw [hm3eq]
    exact lookup_objInsert_self m2 "RB1" (.single (yahooMkPlayer r2))
  have hlook4 : m4.lookup "RB1" = some (.single (yahooMkPlayer r2)) := by
    rw [hm4]
    rw [lookup_foldl_untouched "RB1" yahooStarterFold post m3 ?_]
    · exact hlook3
    intro e he m'
    unfold yahooStarterFold
    cases hmap : mapYahooLineupPosition e.selected_position with
    | none => rfl
    | some lp =>
      simp only []
      by_cases hlp : lp ≠ "BN"
      · rw [if_pos hlp]
        refine lookup_objInsert_ne m' lp (.single (yahooMkPlayer e)) "RB1" (fun hrb => ?_)
        rw [← hrb] at hmap
        exact hpost e he (yahooSlot_eq_rb1 hmap)
      · rw [if_neg hlp]
  -- r1's player survives nowhere
  have hm0_prop : ∀ kv ∈ m0, kv.2 ≠ .single (yahooMkPlayer r1) := by
    rw [hm0]
    refine foldl_preserve_mem
      (P := fun kv : String × SlotVal => kv.2 ≠ .single (yahooMkPlayer r1))
      yahooStarterFold pre [] (by simp) ?_
    intro e he m hm kv hkv
    rcases yahooStarterFold_mem e m kv hkv with hmem | ⟨lp, rfl⟩
    · exact hm kv hmem
    · intro hc
      exact hothers e (hpre_sub e he) (by simpa using hc)
  have hm2_prop : ∀ kv ∈ m2, kv.2 ≠ .single (yahooMkPlayer r1) ∨ kv.1 = "RB1" := by
    rw [hm2]
    refine foldl_preserve_mem
      (P := fun kv : String × SlotVal =>
        kv.2 ≠ .single (yahooMkPlayer r1) ∨ kv.1 = "RB1")
      yahooStarterFold mid m1 ?_ ?_
    · intro kv hkv
      rw [hm1, yahooStarterFold_rb r1 m0 h1] at hkv
      rcases mem_objInsert hkv with rfl | ⟨hmem, _⟩
      · exact Or.inr rfl
      · exact Or.inl (hm0_prop kv hmem)
    · intro e he m hm kv hkv
      rcases yahooStarterFold_mem e m kv hkv with hmem | ⟨lp, rfl⟩
      · exact hm kv hmem
      · refine Or.inl (fun hc => ?_)
        exact hothers e (hmid_sub e he) (by simpa using hc)
  have hm3_prop : ∀ kv ∈ m3, kv.2 ≠ .single (yahooMkPlayer r1) := by
    intro kv hkv
    rw [hm3eq] at hkv
    rcases mem_objInsert hkv with rfl | ⟨hmem, hne⟩
    · intro hc
      exact hner (by simpa using hc)
    · rcases hm2_prop kv hmem with hgood | hrb1
      · exact hgood
      · exact absurd hrb1 hne
  have hm4_prop : ∀ kv ∈ m4, kv.2 ≠ .single (yahooMkPlayer r1) := by
    rw [hm4]
    refine foldl_preserve_mem
      (P := fun kv : String × SlotVal => kv.2 ≠ .single (yahooMkPlayer r1))
      yahooStarterFold post m3 hm3_prop ?_
    intro e he m hm kv hkv
    rcases yahooStarterFold_mem e m kv hkv with hmem | ⟨lp, rfl⟩
    · exact hm kv hmem
    · intro hc
      exact hothers e (hpost_sub e he) (by simpa using hc)
  -- go from the starter fold to the final players object
  have hplayers : (yahooGetTeamLineup roster teamId week season).players =
      yahooBuildPlayers roster := rfl
  have hbuild_look : (yahooBuildPlayers roster).lookup "RB1" =
      some (.single (yahooMkPlayer r2)) := by
    simp only [yahooBuildPlayers]
    rw [hsplit]
    split
    · rw [lookup_objInsert_ne _ "BENCH" _ "RB1" (by decide)]
      exact hlook4
    · exact hlook4
  have hbuild_prop : ∀ kv ∈ yahooBuildPlayers roster,
      kv.2 ≠ .single (yahooMkPlayer r1) := by
    intro kv hkv
    simp only [yahooBuildPlayers] at hkv
    rw [hsplit] at hkv
    split at hkv
    · rcases mem_objInsert hkv with rfl | ⟨hmem, _⟩
      · simp
      · exact hm4_prop kv hmem
    · exact hm4_prop kv hkv
  refine ⟨⟨rfl, rfl, yahooSlot_ne_rb2, yahooSlot_ne_wr2⟩, ?_, ?_, ?_⟩
  · rw [hplayers]
    exact hbuild_look
  · rw [hplayers]
    exact hbuild_prop
  · exact totalProjected_eq_slotNameProjSum _ (yahooBuildPlayers_benchTyped roster)

def c9r1 : YahooRawPlayer :=
  ⟨"y1", "First Back", "RB", "RB", "SF", "", some (mkRat 10 1), none⟩

def c9r2 : YahooRawPlayer :=
  ⟨"y2", "Second Back", "RB", "RB", "DAL", "Q", some (mkRat 8 1), some (mkRat 7 1)⟩

/-- Witness for C9 at a roster holding exactly two starting RBs. -/
theorem C9_witness :
    c9r1.selected_position = "RB" ∧ c9r2.selected_position = "RB" ∧
    yahooMkPlayer c9r2 ≠ yahooMkPlayer c9r1 ∧
    (yahooGetTeamLineup [c9r1, c9r2] "1" 2 2025).players.lookup "RB1" =
      some (.single (yahooMkPlayer c9r2)) :=
  ⟨rfl, rfl, by decide,
   (C9_yahoo_rb1_overwrite [] [] [] c9r1 c9r2 "1" 2 2025 rfl rfl (by simp) (by simp)
     (by decide)).2.1⟩

/-- C5: with an authenticated session, whenever the fetched HTML response
(an HTML page, i.e. one containing `<!DOCTYPE`, which is the code's own
response-classification criterion) contains the literal substring
`login`, the fetch path throws the authentication-failure error instead
of handing the page to `parseTeamPage`, and `getTeamFromUrl` therefore
returns the mock fallback rather than parsed team data. -/
theorem C5_login_marker_is_auth_failure :
    ∀ (now : Int) (defaultSeason : String) (st : ESPNState) (session : ESPNAuthSession)
      (teamUrl : String) (net : NetReq → Except String String) (html : String),
      st.authSession = some session → session.isAuthenticated = true →
      ¬ session.expiresAt < now →
      jsTruthy (queryGet (urlQueryOf teamUrl) "leagueId") = true →
      jsTruthy (queryGet (urlQueryOf teamUrl) "teamId") = true →
      net (.corsAnywhere
        (teamPageUrl ((queryGet (urlQueryOf teamUrl) "leagueId").getD "")
          ((queryGet (urlQueryOf teamUrl) "teamId").getD "")
          (urlSeasonOf teamUrl defaultSeason)) session.cookies) = .ok html →
      containsSub html "<!DOCTYPE" = true →
      containsSub html "login" = true →
      (getTeamFromUrlCore session teamUrl defaultSeason net).1 =
        .error "Authentication failed - got login page instead of team data" ∧
      (getTeamFromUrlRun now defaultSeason st teamUrl net).1 =
        .ok (.mock (createMockTeamData
          ((queryGet (urlQueryOf teamUrl) "leagueId").getD "null")
          ((queryGet (urlQueryOf teamUrl) "teamId").getD "null")
          (urlSeasonOf teamUrl defaultSeason))) := by
  intro now defaultSeason st session teamUrl net html hsess hflag hnotexp hlid htid hnet
    hdoc hlogin
  have hcore : getTeamFromUrlCore session teamUrl defaultSeason net =
      (.error "Authentication failed - got login page instead of team data",
        [.corsAnywhere
          (teamPageUrl ((queryGet (urlQueryOf teamUrl) "leagueId").getD "")
            ((queryGet (urlQueryOf teamUrl) "teamId").getD "")
            (urlSeasonOf teamUrl defaultSeason)) session.cookies]) := by
    simp only [getTeamFromUrlCore]
    rw [if_neg (by simp [hlid, htid])]
    rw [hnet]
    simp only [checkLoginAndParse]
    rw [if_pos (by simp [hdoc, hlogin])]
  refine ⟨by rw [hcore], ?_⟩
  simp only [getTeamFromUrlRun, isAuthenticatedRun, hsess]
  rw [if_neg hnotexp]
  simp only [hflag, not_true_eq_false, if_false, hsess, hcore]

def c5Session : ESPNAuthSession := ⟨true, "espn_s2=tok", 2000, some "u"⟩

def c5State : ESPNState := ⟨some c5Session, some c5Session⟩

def c5Url : String :=
  "https://fantasy.espn.com/football/team?leagueId=45107891&teamId=7&season=2025"

def c5Html : String := "<!DOCTYPE html><html>Please login to continue</html>"

def c5Net : NetReq → Except String String := fun _ => .ok c5Html

/-- Witness for C5 at a concrete authenticated session and login page. -/
theorem C5_witness :
    containsSub c5Html "<!DOCTYPE" = true ∧ containsSub c5Html "login" = true ∧
    (getTeamFromUrlCore c5Session c5Url "2025" c5Net).1 =
      .error "Authentication failed - got login page instead of team data" ∧
    (getTeamFromUrlRun 1500 "2025" c5State c5Url c5Net).1 =
      .ok (.mock (createMockTeamData ((queryGet (urlQueryOf c5Url) "leagueId").getD "null")
        ((queryGet (urlQueryOf c5Url) "teamId").getD "null") (urlSeasonOf c5Url "2025"))) := by
  have h := C5_login_marker_is_auth_failure 1500 "2025" c5State c5Session c5Url c5Net c5Html
    rfl rfl (by decide) (by decide) (by decide) rfl (by decide) (by decide)
  exact ⟨by decide, by decide, h.1, h.2⟩

/-- Every parse of the scraped page yields at least one player: the mock
players are the non-empty terminal fallback of `extractPlayers`. -/
theorem extractPlayers_ne_nil (html : String) : extractPlayers html ≠ [] := by
  simp only [extractPlayers]
  by_cases h1 : probeLoop html.data knownPlayerNames [] ≠ []
  · rw [if_pos h1]
    exact h1
  · rw [if_neg h1]
    by_cases h2 : tableLoop (tableRowsOf html) (probeLoop html.data knownPlayerNames []) ≠ []
    · rw [if_pos h2]
      exact h2
    · rw [if_neg h2]
      decide

def c3html : String :=
  "<tr class=\"Table__TR\"><a>Bob Smith</a> QB GB 10.5 12.5</tr> Jalen Hurts"

/-- C3 counterexample: on a page with no structured JSON blob where BOTH
the table-row strategy and the name-probe strategy yield players, the code
returns the name-probe output — so the claimed strategy order
(structured, then table-row, then name-probe, then mock, stopping at the
first non-empty result) is wrong: the name-probe runs BEFORE the
table-row extraction.  Under the claimed order the result at this input
would have been the (non-empty, different) table-row output. -/
theorem C3_counterexample :
    extractJSONData c3html = none ∧
    tableRowPlayers c3html ≠ [] ∧
    probePlayers c3html ≠ [] ∧
    extractPlayers c3html = probePlayers c3html ∧
    probePlayers c3html ≠ tableRowPlayers c3html := by
  refine ⟨by decide, by decide, by decide, by decide, by decide⟩

/-- C3 (amended): the parse prefers the structured JSON strategy, then the
name-probe, then the table-row extraction, then the mock players, stopping
at the first non-empty result; with a JSON blob present the structured
strategy's output is used even when table rows would also match; without a
blob the HTML-extracted players are used only when the extracted team name
differs from the default `ESPN Team`. -/
theorem C3_amended_parse_order :
    (∀ html : String, extractPlayers html =
      (if probePlayers html ≠ [] then probePlayers html
       else if tableRowPlayers html ≠ [] then tableRowPlayers html
       else getMockPlayers)) ∧
    (∀ (html leagueId teamId season j : String), extractJSONData html = some j →
      parseTeamPage html leagueId teamId season =
        .mock (parseJSONTeamData j leagueId teamId season (extractTeamName html))) ∧
    (∀ (html leagueId teamId season : String), extractJSONData html = none →
      extractTeamName html ≠ "ESPN Team" →
      parseTeamPage html leagueId teamId season =
        .html
          { id := "espn_" ++ teamId
            name := extractTeamName html
            platform := "ESPN"
            leagueId := leagueId
            leagueName := "ESPN League " ++ leagueId
            ownerId := "current_user"
            record := extractRecord html
            season := jsParseIntD season
            isActive := true
            lineup :=
              { id := "lineup_" ++ teamId
                teamId := "espn_" ++ teamId
                week := 1
                players := extractPlayers html
                totalProjectedPoints :=
                  (extractPlayers html).foldl (fun s p => qAdd s p.projectedPoints) 0
                totalActualPoints :=
                  (extractPlayers html).foldl (fun s p => qAdd s p.points) 0 } }) := by
  refine ⟨?_, ?_, ?_⟩
  · intro html
    simp only [extractPlayers, probePlayers, tableRowPlayers]
    by_cases h1 : probeLoop html.data knownPlayerNames [] ≠ []
    · rw [if_pos h1, if_pos h1]
    · rw [if_neg h1, if_neg h1]
      rw [not_ne_iff.1 h1]
  · intro html leagueId teamId season j hjson
    simp only [parseTeamPage, hjson]
  · intro html leagueId teamId season hjson hname
    simp only [parseTeamPage, hjson]
    rw [if_pos ⟨extractPlayers_ne_nil html, hname⟩]

def c3html2 : String :=
  "window.__INITIAL_STATE__ = \x7b\"a\":1\x7d; <tr class=\"Table__TR\"><a>Cab Dee</a> QB GB 10.5 12.5</tr>"

def c3blob : String := "\x7b\"a\":1\x7d"

def c3html3 : String := "<h1>My Squad</h1>"

/-- Witness for the amended C3: a page with a JSON blob takes the
structured branch even though a table row matches; a blob-less page with a
recognizable team name takes the HTML branch. -/
theorem C3_amended_witness :
    extractJSONData c3html2 = some c3blob ∧
    tableRowPlayers c3html2 ≠ [] ∧
    parseTeamPage c3html2 "45107891" "7" "2025" =
      .mock (parseJSONTeamData c3blob "45107891" "7" "2025" (extractTeamName c3html2)) ∧
    extractJSONData c3html3 = none ∧
    extractTeamName c3html3 ≠ "ESPN Team" ∧
    parseTeamPage c3html3 "45107891" "7" "2025" =
      .html
        { id := "espn_" ++ "7"
          name := extractTeamName c3html3
          platform := "ESPN"
          leagueId := "45107891"
          leagueName := "ESPN League " ++ "45107891"
          ownerId := "current_user"
          record := extractRecord c3html3
          season := jsParseIntD "2025"
          isActive := true
          lineup :=
            { id := "lineup_" ++ "7"
              teamId := "espn_" ++ "7"
              week := 1
              players := extractPlayers c3html3
              totalProjectedPoints :=
                (extractPlayers c3html3).foldl (fun s p => qAdd s p.projectedPoints) 0
              totalActualPoints :=
                (extractPlayers c3html3).foldl (fun s p => qAdd s p.points) 0 } } :=
  ⟨by decide, by decide,
   C3_amended_parse_order.2.1 c3html2 "45107891" "7" "2025" c3blob (by decide),
   by decide, by decide,
   C3_amended_parse_order.2.2 c3html3 "45107891" "7" "2025" (by decide) (by decide)⟩
